import Mathlib

/-!
Verification development for the 2Px3 highway simulation.

Sources modelled: src/highway_sim_V2.py (namespace HV2),
src/sim_client_requests.py (namespace SCR), src/highway_sim1.py (namespace HS1).

Modelling conventions.
The Python grid holds object references; object identity and aliasing are
modelled by a store mapping car ids to driver records, while grid cells hold
ids (EMPTY is none).  Python list indexing is modelled by pyGet: a
non-negative index reads directly, a negative index wraps from the end of
the list, and anything out of range is an IndexError, modelled as none.
Randomness (random.random()) is modelled by an injected stream u : Nat → ℚ
together with an index rix counting the draws made so far.
-/

def pyGet {α : Type} (xs : List α) (i : Int) : Option α :=
  if 0 ≤ i then xs[i.toNat]?
  else if -(xs.length : Int) ≤ i then xs[(i + xs.length).toNat]?
  else none

/-- Read road[lane][i] with Python indexing semantics; none is an IndexError. -/
def pyCellGet (road : List (List (Option Nat))) (lane i : Int) : Option (Option Nat) :=
  (pyGet road lane).bind (fun ln => pyGet ln i)

def updStore {α : Type} (st : Nat → α) (i : Nat) (d : α) : Nat → α :=
  fun j => if j = i then d else st j

/-- The desire state labels of the Python code (CRUISE, LANE_CHANGE,
LANE_CHANGE_LEFT, LANE_CHANGE_RIGHT). -/
inductive Desire
  | cruise
  | laneChange
  | laneChangeLeft
  | laneChangeRight
  deriving DecidableEq, Repr

namespace HV2

def FAST : Nat := 5
def SLOW : Nat := 4
def HIGHWAY_LENGTH : Nat := 110
def NUM_LANES : Nat := 4
def HUMAN_SAFE_FOLLOW : Nat := 4
def SDC_SAFE_FOLLOW : Nat := 2
def LANE_CHANGE_SAFE_BACK : Nat := FAST
def LANE_CHANGE_SAFE_FORWARD : Nat := FAST
def LEFT_LANE_CHANGE_PROBABILITY : ℚ := mkRat 1 2
def CAR_PROBABILITY : ℚ := mkRat 1 4
def FAST_PROBABILITY : ℚ := mkRat 1 2
def IS_HUMAN_PROBABILITY : ℚ := mkRat 1 2

/-- Driver record of highway_sim_V2.py. -/
structure Driver where
  id : Nat
  desire : Desire
  is_human : Bool
  speed : Nat
  safe_follow : Nat
  arrive_time : Nat
  final_time : Nat
  travel_time : Int
  final_dist : Nat
  avg_speed : ℚ
  deriving DecidableEq, Repr

/-- Driver.__init__ of highway_sim_V2.py. -/
def mkDriver (car_id speed arrive_time : Nat) (is_human : Bool) : Driver :=
  { id := car_id
    desire := Desire.cruise
    is_human := is_human
    speed := speed
    safe_follow := if is_human then HUMAN_SAFE_FOLLOW else SDC_SAFE_FOLLOW
    arrive_time := arrive_time
    final_time := 0
    travel_time := 0
    final_dist := 0
    avg_speed := (speed : ℚ) }

/-- The array produced by Driver.output_data. -/
structure OutputData where
  id : Nat
  speed : Nat
  is_human : Bool
  arrive_time : Nat
  final_time : Nat
  travel_time : Int
  final_dist : Nat
  avg_speed : ℚ
  deriving DecidableEq, Repr

def Driver.output_data (d : Driver) : OutputData :=
  { id := d.id
    speed := d.speed
    is_human := d.is_human
    arrive_time := d.arrive_time
    final_time := d.final_time
    travel_time := d.travel_time
    final_dist := d.final_dist
    avg_speed := d.avg_speed }

/-- Highway of highway_sim_V2.py; cells hold car ids, EMPTY is none. -/
structure Highway where
  num_lanes : Nat
  length : Nat
  road : List (List (Option Nat))
  deriving DecidableEq, Repr

/-- Highway.__init__: num_lanes lanes of length cells, all EMPTY. -/
def mkHighway (length num_lanes : Nat) : Highway :=
  { num_lanes := num_lanes
    length := length
    road := List.replicate num_lanes (List.replicate length (none : Option Nat)) }

/-- The grid shape the constructor establishes. -/
def Highway.WF (h : Highway) : Prop :=
  h.road.length = h.num_lanes ∧ ∀ ln ∈ h.road, ln.length = h.length

/-- Highway.get.  The tick engine only calls it on in-range cells (an
out-of-range Python access would raise); out of range this total version
reads EMPTY, which in particular makes occupancy imply in-rangeness. -/
def Highway.get (h : Highway) (lane index : Nat) : Option Nat :=
  (h.road.getD lane []).getD index none

/-- Highway.set.  The tick engine only calls it on in-range cells; out of
range this total version is a no-op. -/
def Highway.set (h : Highway) (lane index : Nat) (v : Option Nat) : Highway :=
  { h with road := h.road.set lane ((h.road.getD lane []).set index v) }

/-- Loop body of Highway.safe_distance_within: iterate i over
index+1 .. index+k (fuel counts remaining iterations), checking the end of
the road before each access, exactly as the Python loop does.  A none result
is an IndexError (an out-of-range lane). -/
def sdwGo (road : List (List (Option Nat))) (lane length k : Nat) :
    Nat → Nat → Nat → Option Nat
  | _, x, 0 => some x
  | i, x, fuel + 1 =>
    if length ≤ i then some k
    else
      match (road[lane]?).bind (fun ln => ln[i]?) with
      | none => none
      | some c => if c.isSome then some x else sdwGo road lane length k (i + 1) (x + 1) fuel

/-- Highway.safe_distance_within of highway_sim_V2.py (clear_run of the
spec); identical code appears in highway_sim1.py and sim_client_requests.py. -/
def Highway.safe_distance_within (h : Highway) (lane index k : Nat) : Option Nat :=
  sdwGo h.road lane h.length k (index + 1) 0 k

/-- The indices of the Python loop range(i-1, i-LANE_CHANGE_SAFE_BACK-1, -1). -/
def backRange (i : Nat) : List Int :=
  (List.range LANE_CHANGE_SAFE_BACK).map (fun j => (i : Int) - 1 - j)

/-- The indices of the Python loop range(i+1, i+LANE_CHANGE_SAFE_FORWARD+1). -/
def fwdRange (i : Nat) : List Int :=
  (List.range LANE_CHANGE_SAFE_FORWARD).map (fun j => (i : Int) + 1 + j)

/-- One iteration of the safety-scan loops: every cell is accessed (the
Python loop has no break), an occupied cell forces the flag to False, and an
out-of-range access is an IndexError propagated as none. -/
def scanAcc (road : List (List (Option Nat))) (lane : Int) (acc : Option Bool)
    (k : Int) : Option Bool :=
  acc.bind (fun b => (pyCellGet road lane k).map (fun c => b && c.isNone))

/-- Highway.safe_right_lane_change of highway_sim_V2.py.  The Python guard
lane == self.num_lanes - 1 over ints is lane + 1 = num_lanes over Nat. -/
def Highway.safe_right_lane_change (h : Highway) (lane i : Nat) : Option Bool :=
  if lane + 1 = h.num_lanes then some false
  else
    (backRange i ++ fwdRange i).foldl (scanAcc h.road ((lane : Int) + 1))
      ((pyCellGet h.road ((lane : Int) + 1) (i : Int)).map (fun c => c.isNone))

/-- Highway.safe_left_lane_change of highway_sim_V2.py. -/
def Highway.safe_left_lane_change (h : Highway) (lane i : Nat) : Option Bool :=
  if lane = 0 then some false
  else
    (backRange i ++ fwdRange i).foldl (scanAcc h.road ((lane : Int) - 1))
      ((pyCellGet h.road ((lane : Int) - 1) (i : Int)).map (fun c => c.isNone))

/-- Simulation state of highway_sim_V2.py.  store is the heap of Driver
objects indexed by car id; rix counts random draws already consumed from the
injected stream. -/
structure Sim where
  road : Highway
  current_step : Nat
  num_cars : Nat
  data : List OutputData
  store : Nat → Driver
  rix : Nat

/-- Simulation.sim_cruise of highway_sim_V2.py.  The function is only ever
called on an occupied in-range cell; the impossible empty/error lookups
return the state unchanged. -/
def Sim.sim_cruise (s : Sim) (lane i : Nat) : Sim :=
  match s.road.get lane i with
  | none => s
  | some did =>
    let d := s.store did
    match s.road.safe_distance_within lane i (d.speed + d.safe_follow) with
    | none => s
    | some x =>
      if x = d.speed + d.safe_follow then
        let s1 := { s with road := s.road.set lane (i + d.speed) (some did) }
        { s1 with road := s1.road.set lane i none }
      else if d.safe_follow < x then
        let s1 := { s with
          store := updStore s.store did { d with desire := Desire.laneChange }
          road := s.road.set lane (i + x - d.safe_follow) (some did) }
        { s1 with road := s1.road.set lane i none }
      else
        let s1 := { s with
          store := updStore s.store did { d with desire := Desire.laneChange }
          road := s.road.set lane (i + 1) (some did) }
        { s1 with road := s1.road.set lane i none }

/-- The direction-resolution block of Simulation.sim_driver of
highway_sim_V2.py: a driver whose desire is LANE_CHANGE picks left-first or
right-first according to r, taking the first direction whose safety check
passes; d is the driver object read at the top of sim_driver. -/
def Sim.resolve_direction (s : Sim) (did : Nat) (d : Driver) (r : ℚ) (lane i : Nat) :
    Sim :=
  if d.desire = Desire.laneChange ∧ r ≤ LEFT_LANE_CHANGE_PROBABILITY then
    if s.road.safe_left_lane_change lane i = some true then
      { s with store := updStore s.store did { d with desire := Desire.laneChangeLeft } }
    else if s.road.safe_right_lane_change lane i = some true then
      { s with store := updStore s.store did { d with desire := Desire.laneChangeRight } }
    else s
  else if d.desire = Desire.laneChange ∧ LEFT_LANE_CHANGE_PROBABILITY < r then
    if s.road.safe_right_lane_change lane i = some true then
      { s with store := updStore s.store did { d with desire := Desire.laneChangeRight } }
    else if s.road.safe_left_lane_change lane i = some true then
      { s with store := updStore s.store did { d with desire := Desire.laneChangeLeft } }
    else s
  else s

/-- The lane-change-execution / cruise dispatch at the end of
Simulation.sim_driver of highway_sim_V2.py: it re-reads the driver object
(whose desire the resolution step may have changed). -/
def Sim.execute_desire (s : Sim) (did : Nat) (lane i : Nat) : Sim :=
  let d3 := s.store did
  if d3.desire = Desire.laneChangeRight then
    let s := { s with
      road := (s.road.set (lane + 1) i (some did)).set lane i none
      store := updStore s.store did { d3 with desire := Desire.cruise } }
    s.sim_cruise (lane + 1) i
  else if d3.desire = Desire.laneChangeLeft then
    let s := { s with
      road := (s.road.set (lane - 1) i (some did)).set lane i none
      store := updStore s.store did { d3 with desire := Desire.cruise } }
    s.sim_cruise (lane - 1) i
  else if d3.desire = Desire.cruise ∨ d3.desire = Desire.laneChange then
    s.sim_cruise lane i
  else s

/-- Simulation.sim_driver of highway_sim_V2.py. -/
def Sim.sim_driver (s : Sim) (u : Nat → ℚ) (lane i : Nat) : Sim :=
  match s.road.get lane i with
  | none => s
  | some did =>
    let d := s.store did
    if s.road.length - 1 ≤ d.speed + i then
      let d2 := { d with
        final_time := s.current_step
        final_dist := HIGHWAY_LENGTH
        travel_time := (s.current_step : Int) - (d.arrive_time : Int)
        avg_speed := (HIGHWAY_LENGTH : ℚ) / ((s.current_step : ℚ) - (d.arrive_time : ℚ)) }
      { s with
        road := s.road.set lane i none
        store := updStore s.store did d2
        data := s.data ++ [d2.output_data] }
    else
      let r := u s.rix
      let s := { s with rix := s.rix + 1 }
      let s := s.resolve_direction did d r lane i
      s.execute_desire did lane i

/-- The inner lane loop of Simulation.execute_time_step. -/
def Sim.lane_pass (s : Sim) (u : Nat → ℚ) (i : Nat) : Sim :=
  (List.range s.road.num_lanes).foldl
    (fun s k => if (s.road.get k i).isSome then s.sim_driver u k i else s) s

/-- One iteration of the lane loop of Simulation.gen_new_drivers of
highway_sim_V2.py: draw an arrival roll, and on success draw operator class
and speed class and write the new driver into cell (lane, 0)
unconditionally. -/
def gen_lane_step (u : Nat → ℚ) (p : Sim × Nat) (lane : Nat) : Sim × Nat :=
  let s := p.1
  let cid := p.2
  let r1 := u s.rix
  let s := { s with rix := s.rix + 1 }
  if r1 < CAR_PROBABILITY then
    let r2 := u s.rix
    let s := { s with rix := s.rix + 1 }
    let ih := decide (r2 < IS_HUMAN_PROBABILITY)
    let r3 := u s.rix
    let s := { s with rix := s.rix + 1 }
    let spd := if r3 < FAST_PROBABILITY then FAST else SLOW
    let d := mkDriver cid spd s.current_step ih
    (⟨{ s with road := s.road.set lane 0 (some cid), store := updStore s.store cid d },
      cid + 1⟩ : Sim × Nat)
  else (s, cid)

/-- Simulation.gen_new_drivers of highway_sim_V2.py. -/
def Sim.gen_new_drivers (s : Sim) (u : Nat → ℚ) : Sim :=
  let out := (List.range s.road.num_lanes).foldl (gen_lane_step u) (s, s.num_cars)
  { out.1 with num_cars := out.2 }

/-- Simulation.execute_time_step of highway_sim_V2.py: positions from the
end of the road down to 0, lanes in increasing order, then new arrivals. -/
def Sim.execute_time_step (s : Sim) (u : Nat → ℚ) : Sim :=
  let s1 := ((List.range s.road.length).reverse).foldl (fun s i => s.lane_pass u i) s
  s1.gen_new_drivers u

end HV2

namespace SCR

def FAST : Nat := 5
def SLOW : Nat := 4
def HIGHWAY_LENGTH : Nat := 110
def NUM_DEF_LANES : Nat := 3
def NUM_SD_LANES : Nat := 1
def HUMAN_SAFE_FOLLOW : Nat := 4
def SDC_SAFE_FOLLOW : Nat := 2
def LANE_CHANGE_SAFE_BACK : Nat := FAST
def LANE_CHANGE_SAFE_FORWARD : Nat := FAST
def LEFT_LANE_CHANGE_PROBABILITY : ℚ := mkRat 1 2
def FAST_PROBABILITY : ℚ := mkRat 1 2
def IS_HUMAN_PROBABILITY : ℚ := mkRat 1 2
def DRUNK_PROBABILITY : ℚ := mkRat 3 100
def DRUNK_CRASH_PROB : ℚ := mkRat 1 100
def CRASH_PROB : ℚ := mkRat 1 1000

/-- Driver record of sim_client_requests.py (adds is_drunk). -/
structure Driver where
  id : Nat
  desire : Desire
  is_human : Bool
  speed : Nat
  is_drunk : Bool
  safe_follow : Nat
  arrive_time : Nat
  final_time : Nat
  travel_time : Int
  final_dist : Nat
  avg_speed : ℚ
  deriving DecidableEq, Repr

/-- Driver.__init__ of sim_client_requests.py. -/
def mkDriver (car_id speed arrive_time : Nat) (is_human is_drunk : Bool) : Driver :=
  { id := car_id
    desire := Desire.cruise
    is_human := is_human
    speed := speed
    is_drunk := is_drunk
    safe_follow := if is_human then HUMAN_SAFE_FOLLOW else SDC_SAFE_FOLLOW
    arrive_time := arrive_time
    final_time := 0
    travel_time := 0
    final_dist := 0
    avg_speed := (speed : ℚ) }

/-- The array produced by Driver.output_data of sim_client_requests.py. -/
structure OutputData where
  id : Nat
  speed : Nat
  is_human : Bool
  arrive_time : Nat
  final_time : Nat
  travel_time : Int
  final_dist : Nat
  avg_speed : ℚ
  deriving DecidableEq, Repr

def Driver.output_data (d : Driver) : OutputData :=
  { id := d.id
    speed := d.speed
    is_human := d.is_human
    arrive_time := d.arrive_time
    final_time := d.final_time
    travel_time := d.travel_time
    final_dist := d.final_dist
    avg_speed := d.avg_speed }

/-- Highway of sim_client_requests.py: num_def_lanes default lanes followed
by num_sd_lanes self-driving lanes; cells hold car ids, EMPTY is none. -/
structure Highway where
  num_def_lanes : Nat
  num_sd_lanes : Nat
  length : Nat
  road : List (List (Option Nat))
  deriving DecidableEq, Repr

/-- Highway.__init__ of sim_client_requests.py. -/
def mkHighway (length num_def_lanes num_sd_lanes : Nat) : Highway :=
  { num_def_lanes := num_def_lanes
    num_sd_lanes := num_sd_lanes
    length := length
    road := List.replicate (num_def_lanes + num_sd_lanes)
      (List.replicate length (none : Option Nat)) }

def Highway.get (h : Highway) (lane index : Nat) : Option Nat :=
  (h.road.getD lane []).getD index none

def Highway.set (h : Highway) (lane index : Nat) (v : Option Nat) : Highway :=
  { h with road := h.road.set lane ((h.road.getD lane []).set index v) }

/-- Highway.safe_distance_within of sim_client_requests.py (same code as in
highway_sim_V2.py). -/
def Highway.safe_distance_within (h : Highway) (lane index k : Nat) : Option Nat :=
  HV2.sdwGo h.road lane h.length k (index + 1) 0 k

/-- Highway.safe_right_lane_change of sim_client_requests.py.  The guard
compares against num_def_lanes - 1 (not the last lane of the road); the
Python int comparison lane == num_def_lanes - 1 is lane + 1 = num_def_lanes
over Nat. -/
def Highway.safe_right_lane_change (h : Highway) (lane i : Nat) : Option Bool :=
  if lane + 1 = h.num_def_lanes then some false
  else
    (HV2.backRange i ++ HV2.fwdRange i).foldl (HV2.scanAcc h.road ((lane : Int) + 1))
      ((pyCellGet h.road ((lane : Int) + 1) (i : Int)).map (fun c => c.isNone))

/-- Highway.safe_left_lane_change of sim_client_requests.py. -/
def Highway.safe_left_lane_change (h : Highway) (lane i : Nat) : Option Bool :=
  if lane = 0 then some false
  else
    (HV2.backRange i ++ HV2.fwdRange i).foldl (HV2.scanAcc h.road ((lane : Int) - 1))
      ((pyCellGet h.road ((lane : Int) - 1) (i : Int)).map (fun c => c.isNone))

/-- Simulation state of sim_client_requests.py; crashes is the incident log
(vehicle speeds).  store is the heap of Driver objects indexed by car id. -/
structure Sim where
  road : Highway
  current_step : Nat
  num_cars : Nat
  data : List OutputData
  crashes : List Nat
  store : Nat → Driver
  rix : Nat

/-- Simulation.sim_cruise of sim_client_requests.py.  Faithful to the source
indentation: the movement if/elif has no else of its own; a crash roll is
drawn next, and the else of the crash-roll if/elif chain (the 1-cell advance
that sets desire to LANE_CHANGE) runs exactly when the driver is not drunk
and the roll misses, regardless of which movement branch ran.  Finally the
origin cell is cleared. -/
def Sim.sim_cruise (s : Sim) (u : Nat → ℚ) (lane i : Nat) : Sim :=
  match s.road.get lane i with
  | none => s
  | some did =>
    let d := s.store did
    match s.road.safe_distance_within lane i (d.speed + d.safe_follow) with
    | none => s
    | some x =>
      let s :=
        if x = d.speed + d.safe_follow then
          { s with road := s.road.set lane (i + d.speed) (some did) }
        else if d.safe_follow < x then
          { s with
            store := updStore s.store did { d with desire := Desire.laneChange }
            road := s.road.set lane (i + x - d.safe_follow) (some did) }
        else s
      let r := u s.rix
      let s := { s with rix := s.rix + 1 }
      let d1 := s.store did
      let s :=
        if d1.is_drunk then
          if r < DRUNK_CRASH_PROB then { s with crashes := s.crashes ++ [d1.speed] } else s
        else if r < CRASH_PROB then { s with crashes := s.crashes ++ [d1.speed] }
        else
          { s with
            store := updStore s.store did { d1 with desire := Desire.laneChange }
            road := s.road.set lane (i + 1) (some did) }
      { s with road := s.road.set lane i none }

/-- The crash-roll block at the top of Simulation.sim_driver of
sim_client_requests.py: when the desire is not CRUISE it redraws r
(overwriting the direction draw), possibly logs a crash, and hands the new
r on — that same r is then used for the left/right preference comparison. -/
def Sim.crash_check (s : Sim) (u : Nat → ℚ) (d : Driver) (r : ℚ) : Sim × ℚ :=
  if d.desire ≠ Desire.cruise then
    let r2 := u s.rix
    let s := { s with rix := s.rix + 1 }
    if d.is_drunk then
      if r2 < DRUNK_CRASH_PROB then
        ({ s with crashes := s.crashes ++ [d.speed] }, r2)
      else (s, r2)
    else if r2 < CRASH_PROB then
      ({ s with crashes := s.crashes ++ [d.speed] }, r2)
    else (s, r2)
  else (s, r)

/-- The direction-resolution block of Simulation.sim_driver of
sim_client_requests.py (identical to the highway_sim_V2.py one). -/
def Sim.resolve_direction (s : Sim) (did : Nat) (d : Driver) (r : ℚ) (lane i : Nat) :
    Sim :=
  if d.desire = Desire.laneChange ∧ r ≤ LEFT_LANE_CHANGE_PROBABILITY then
    if s.road.safe_left_lane_change lane i = some true then
      { s with store := updStore s.store did { d with desire := Desire.laneChangeLeft } }
    else if s.road.safe_right_lane_change lane i = some true then
      { s with store := updStore s.store did { d with desire := Desire.laneChangeRight } }
    else s
  else if d.desire = Desire.laneChange ∧ LEFT_LANE_CHANGE_PROBABILITY < r then
    if s.road.safe_right_lane_change lane i = some true then
      { s with store := updStore s.store did { d with desire := Desire.laneChangeRight } }
    else if s.road.safe_left_lane_change lane i = some true then
      { s with store := updStore s.store did { d with desire := Desire.laneChangeLeft } }
    else s
  else s

/-- The lane-change-execution / cruise dispatch at the end of
Simulation.sim_driver of sim_client_requests.py. -/
def Sim.execute_desire (s : Sim) (u : Nat → ℚ) (did : Nat) (lane i : Nat) : Sim :=
  let d3 := s.store did
  if d3.desire = Desire.laneChangeRight then
    let s := { s with
      road := (s.road.set (lane + 1) i (some did)).set lane i none
      store := updStore s.store did { d3 with desire := Desire.cruise } }
    s.sim_cruise u (lane + 1) i
  else if d3.desire = Desire.laneChangeLeft then
    let s := { s with
      road := (s.road.set (lane - 1) i (some did)).set lane i none
      store := updStore s.store did { d3 with desire := Desire.cruise } }
    s.sim_cruise u (lane - 1) i
  else if d3.desire = Desire.cruise ∨ d3.desire = Desire.laneChange then
    s.sim_cruise u lane i
  else s

/-- Simulation.sim_driver of sim_client_requests.py. -/
def Sim.sim_driver (s : Sim) (u : Nat → ℚ) (lane i : Nat) : Sim :=
  match s.road.get lane i with
  | none => s
  | some did =>
    let d := s.store did
    if s.road.length - 1 ≤ d.speed + i then
      let d2 := { d with
        final_time := s.current_step
        final_dist := HIGHWAY_LENGTH
        travel_time := (s.current_step : Int) - (d.arrive_time : Int)
        avg_speed := (HIGHWAY_LENGTH : ℚ) / ((s.current_step : ℚ) - (d.arrive_time : ℚ)) }
      { s with
        road := s.road.set lane i none
        store := updStore s.store did d2
        data := s.data ++ [d2.output_data] }
    else
      let r := u s.rix
      let s := { s with rix := s.rix + 1 }
      let p := s.crash_check u d r
      let s := (p.1).resolve_direction did d p.2 lane i
      s.execute_desire u did lane i

/-- The inner lane loop of Simulation.execute_time_step of
sim_client_requests.py (lanes 0 .. num_def_lanes + num_sd_lanes - 1). -/
def Sim.lane_pass (s : Sim) (u : Nat → ℚ) (i : Nat) : Sim :=
  (List.range (s.road.num_def_lanes + s.road.num_sd_lanes)).foldl
    (fun s k => if (s.road.get k i).isSome then s.sim_driver u k i else s) s

/-- Simulation.gen_new_drivers of sim_client_requests.py.  def_car_prob and
sd_car_prob are module-level mutable globals (reassigned by main), so they
are passed as parameters.  Default lanes receive human drivers (fast/slow,
drunk with probability DRUNK_PROBABILITY); each self-driving arrival draws a
second (unused) roll and is written at lane + num_def_lanes - 1, with all
writes into position 0 done unconditionally. -/
def gen_def_step (u : Nat → ℚ) (def_car_prob : ℚ) (p : Sim × Nat) (lane : Nat) :
    Sim × Nat :=
  let s := p.1
  let cid := p.2
  let r1 := u s.rix
  let s := { s with rix := s.rix + 1 }
  if r1 < def_car_prob then
    let r2 := u s.rix
    let s := { s with rix := s.rix + 1 }
    if r2 < FAST_PROBABILITY then
      let r3 := u s.rix
      let s := { s with rix := s.rix + 1 }
      let d := mkDriver cid FAST s.current_step true (decide (r3 < DRUNK_PROBABILITY))
      (⟨{ s with road := s.road.set lane 0 (some cid), store := updStore s.store cid d },
        cid + 1⟩ : Sim × Nat)
    else
      let r3 := u s.rix
      let s := { s with rix := s.rix + 1 }
      let d := mkDriver cid SLOW s.current_step true (decide (r3 < DRUNK_PROBABILITY))
      (⟨{ s with road := s.road.set lane 0 (some cid), store := updStore s.store cid d },
        cid + 1⟩ : Sim × Nat)
  else (s, cid)

/-- One iteration of the self-driving lane loop of gen_new_drivers: note
the second (unused but consumed) draw, and the target lane
lane + num_def_lanes - 1. -/
def gen_sd_step (u : Nat → ℚ) (sd_car_prob : ℚ) (p : Sim × Nat) (lane : Nat) :
    Sim × Nat :=
  let s := p.1
  let cid := p.2
  let r1 := u s.rix
  let s := { s with rix := s.rix + 1 }
  if r1 < sd_car_prob then
    let s := { s with rix := s.rix + 1 }
    let d := mkDriver cid FAST s.current_step false false
    (⟨{ s with
        road := s.road.set (lane + s.road.num_def_lanes - 1) 0 (some cid)
        store := updStore s.store cid d },
      cid + 1⟩ : Sim × Nat)
  else (s, cid)

def Sim.gen_new_drivers (s : Sim) (u : Nat → ℚ) (def_car_prob sd_car_prob : ℚ) : Sim :=
  let out1 := (List.range s.road.num_def_lanes).foldl (gen_def_step u def_car_prob)
    (s, s.num_cars)
  let out2 := (List.range out1.1.road.num_sd_lanes).foldl (gen_sd_step u sd_car_prob) out1
  { out2.1 with num_cars := out2.2 }

/-- Simulation.execute_time_step of sim_client_requests.py. -/
def Sim.execute_time_step (s : Sim) (u : Nat → ℚ) (def_car_prob sd_car_prob : ℚ) : Sim :=
  let s1 := ((List.range s.road.length).reverse).foldl (fun s i => s.lane_pass u i) s
  s1.gen_new_drivers u def_car_prob sd_car_prob

/-- One iteration of Simulation.run: execute_time_step then increment
current_step. -/
def Sim.tick (s : Sim) (u : Nat → ℚ) (def_car_prob sd_car_prob : ℚ) : Sim :=
  let s1 := s.execute_time_step u def_car_prob sd_car_prob
  { s1 with current_step := s1.current_step + 1 }

/-- A placeholder Driver record for the empty store of a fresh simulation
(the Python heap holds no Driver objects at construction time; ids are only
looked up after they have been created). -/
def blankDriver : Driver := mkDriver 0 SLOW 0 true false

/-- Simulation.__init__ of sim_client_requests.py: a fresh highway of
HIGHWAY_LENGTH cells with NUM_DEF_LANES + NUM_SD_LANES lanes, step 0, no
cars, no data, no crashes. -/
def initSim : Sim :=
  { road := mkHighway HIGHWAY_LENGTH NUM_DEF_LANES NUM_SD_LANES
    current_step := 0
    num_cars := 0
    data := []
    crashes := []
    store := fun _ => blankDriver
    rix := 0 }

/-- The states of sim_client_requests.py reachable from a fresh Simulation
by repeatedly running execute_time_step (Simulation.run), with arbitrary
random draws and arbitrary settings of the mutable globals def_car_prob and
sd_car_prob. -/
inductive Reachable : Sim → Prop
  | init : Reachable initSim
  | step (s : Sim) (u : Nat → ℚ) (dcp scp : ℚ) :
      Reachable s → Reachable (s.tick u dcp scp)

end SCR

/-! Concrete states of sim_client_requests.py used to exercise the crash-roll
interleaving inside Simulation.sim_cruise.  All use the road geometry the
program constructs (110 cells, 3 default lanes plus 1 self-driving lane). -/

def emptyLane : List (Option Nat) := List.replicate 110 (none : Option Nat)

def emptyRoad : List (List (Option Nat)) := List.replicate 4 emptyLane

/-- A sober fast human driver (id 0) alone at cell (0, 5) with the whole
road ahead of it clear. -/
def dupSim : SCR.Sim :=
  { road := { num_def_lanes := 3, num_sd_lanes := 1, length := 110,
              road := emptyRoad.set 0 (emptyLane.set 5 (some 0)) }
    current_step := 3
    num_cars := 1
    data := []
    crashes := []
    store := fun _ => SCR.mkDriver 0 5 0 true false
    rix := 0 }

/-- A sober fast human driver (id 0) at cell (0, 5) directly blocked by a
leader (id 1) at cell (0, 7), so its clear run is 1 and it is in the
no-room-beyond-the-margin case. -/
def blockedSoberSim : SCR.Sim :=
  { road := { num_def_lanes := 3, num_sd_lanes := 1, length := 110,
              road := emptyRoad.set 0 ((emptyLane.set 5 (some 0)).set 7 (some 1)) }
    current_step := 3
    num_cars := 2
    data := []
    crashes := []
    store := fun j => if j = 1 then SCR.mkDriver 1 4 0 true false
                      else SCR.mkDriver 0 5 0 true false
    rix := 0 }

/-- The same blocked configuration with the trailing driver drunk. -/
def blockedDrunkSim : SCR.Sim :=
  { road := { num_def_lanes := 3, num_sd_lanes := 1, length := 110,
              road := emptyRoad.set 0 ((emptyLane.set 5 (some 0)).set 7 (some 1)) }
    current_step := 3
    num_cars := 2
    data := []
    crashes := []
    store := fun j => if j = 1 then SCR.mkDriver 1 4 0 true false
                      else SCR.mkDriver 0 5 0 true true
    rix := 0 }

/-- A random stream all of whose draws are 1/2 (every crash roll misses,
since 1/2 is at least CRASH_PROB and DRUNK_CRASH_PROB). -/
def uHalf : Nat → ℚ := fun _ => mkRat 1 2

/-- A random stream all of whose draws are 0 (every crash roll hits). -/
def uZero : Nat → ℚ := fun _ => mkRat 0 1

/-- A small concrete highway_sim_V2 highway used by witnesses: 2 lanes of 10
cells, one car (id 3) at cell (0, 3), lane 1 empty. -/
def demoHw : HV2.Highway :=
  { num_lanes := 2
    length := 10
    road := [[none, none, none, some 3, none, none, none, none, none, none],
             List.replicate 10 (none : Option Nat)] }

/-- A fully empty highway_sim_V2 highway with 2 lanes of 10 cells. -/
def emptyHw2 : HV2.Highway :=
  { num_lanes := 2
    length := 10
    road := [List.replicate 10 (none : Option Nat), List.replicate 10 (none : Option Nat)] }

/-- A 2-lane highway_sim_V2 highway whose lane 1 is empty except for a car
at the last cell (position 9); behind-window indices below 0 wrap onto it. -/
def hwWrapOcc : HV2.Highway :=
  { num_lanes := 2
    length := 10
    road := [List.replicate 10 (none : Option Nat),
             (List.replicate 10 (none : Option Nat)).set 9 (some 7)] }

/-- The fully empty highway sim_client_requests.py constructs (3 default
lanes plus 1 self-driving lane, 110 cells). -/
def scrEmptyHw : SCR.Highway :=
  { num_def_lanes := 3, num_sd_lanes := 1, length := 110, road := emptyRoad }

/-- The exit-statistics block of Simulation.sim_driver of highway_sim_V2.py
(also sim_client_requests.py): final_time is the current step, final_dist
is the HIGHWAY_LENGTH constant, travel_time = final_time - arrive_time and
avg_speed = final_dist / travel_time. -/
def HV2.exit_stamp (d : HV2.Driver) (step : Nat) : HV2.Driver :=
  { d with
    final_time := step
    final_dist := HV2.HIGHWAY_LENGTH
    travel_time := (step : Int) - (d.arrive_time : Int)
    avg_speed := (HV2.HIGHWAY_LENGTH : ℚ) / ((step : ℚ) - (d.arrive_time : ℚ)) }

/-- A highway_sim_V2 state with a single fast driver (id 0, arrived at tick
3) at cell (0, 105) of the standard 110-cell road at tick 7: its next move
reaches the end of the road. -/
def exitSim : HV2.Sim :=
  { road := { num_lanes := 4, length := 110,
              road := emptyRoad.set 0 (emptyLane.set 105 (some 0)) }
    current_step := 7
    num_cars := 1
    data := []
    store := fun _ => HV2.mkDriver 0 5 3 true
    rix := 0 }

/-- A highway_sim_V2 state whose entry cell (0, 0) is already occupied by
driver id 7 when the arrival generator runs. -/
def arrivalSim : HV2.Sim :=
  { road := { num_lanes := 4, length := 110,
              road := emptyRoad.set 0 (emptyLane.set 0 (some 7)) }
    current_step := 5
    num_cars := 8
    data := []
    store := fun _ => HV2.mkDriver 7 5 2 true
    rix := 0 }

/-- Between vehicle-processing steps every driver object's desire is CRUISE
or LANE_CHANGE (the directed desires are set and consumed within a single
sim_driver call). -/
def SCR.DesireTame (st : Nat → SCR.Driver) : Prop :=
  ∀ did, (st did).desire = Desire.cruise ∨ (st did).desire = Desire.laneChange

/-- Invariant of the sim_client_requests simulation: the lane counts are the
configured constants (3 default + 1 self-driving), every cell of the
highest-index lane 3 is empty, and all stored desires are tame. -/
def SCR.Inv (s : SCR.Sim) : Prop :=
  s.road.num_def_lanes = 3 ∧ s.road.num_sd_lanes = 1 ∧
  (∀ c ∈ s.road.road.getD 3 [], c = none) ∧ SCR.DesireTame s.store

/-- Store soundness maintained between per-vehicle processing steps of
highway_sim_V2.py: every stored desire is CRUISE or LANE_CHANGE (the
directed desires are set and consumed within one sim_driver call) and every
stored speed is the SLOW or the FAST constant (the only speeds
gen_new_drivers ever creates). -/
def HV2.StoreOK (st : Nat → HV2.Driver) : Prop :=
  ∀ j : Nat, ((st j).desire = Desire.cruise ∨ (st j).desire = Desire.laneChange) ∧
    ((st j).speed = HV2.SLOW ∨ (st j).speed = HV2.FAST)

/-- State soundness carried through a highway_sim_V2 tick: a well-formed
grid and a well-formed driver store. -/
def HV2.SGood (s : HV2.Sim) : Prop := s.road.WF ∧ HV2.StoreOK s.store

/-- Tracking state A of the monotone-advance argument: the tracked vehicle
did has not been processed yet this tick; it still occupies its original
cell (l0, p0), its driver object is untouched, and no other cell holds its
id. -/
def HV2.trackA (did l0 p0 : Nat) (dorig : HV2.Driver) (s : HV2.Sim) : Prop :=
  s.road.get l0 p0 = some did ∧ s.store did = dorig ∧
    ∀ l p, s.road.get l p = some did → l = l0 ∧ p = p0

/-- Tracking state B: the tracked vehicle has been processed exactly once
this tick; any cell still holding its id is the single cell (l1, p1),
strictly ahead of p0 by at most spd cells, in the same or an adjacent lane,
and strictly beyond the position bound m, so the remaining downward
traversal never processes it again.  (The vehicle may also have left the
grid: an exit, or an overwrite by a later arrival.) -/
def HV2.trackB (did l0 p0 spd m : Nat) (s : HV2.Sim) : Prop :=
  ∃ l1 p1, p0 < p1 ∧ p1 ≤ p0 + spd ∧ (l1 = l0 ∨ l1 = l0 + 1 ∨ l1 + 1 = l0) ∧
    m < p1 ∧ ∀ l p, s.road.get l p = some did → l = l1 ∧ p = p1

/-- A small highway_sim_V2 state used by witnesses: a single fast driver
(id 0) at cell (0, 2) of a 2-lane, 10-cell road. -/
def trackSim : HV2.Sim :=
  { road := { num_lanes := 2, length := 10,
              road := [(List.replicate 10 (none : Option Nat)).set 2 (some 0),
                       List.replicate 10 (none : Option Nat)] }
    current_step := 0
    num_cars := 1
    data := []
    store := fun _ => HV2.mkDriver 0 HV2.FAST 0 true
    rix := 0 }

/-- Claim C1 (code_bug evidence).  Processing the lone driver of dupSim for
one tick step duplicates its reference into two cells: with full clearance
it is written at 5 + speed = 10, and because the driver is sober and the
crash roll misses, the dangling else of the crash-roll chain in
Simulation.sim_cruise (sim_client_requests.py) writes it again at 5 + 1 = 6;
only the origin cell is cleared.  The occupancy invariant of the claim
(never duplicated into two cells) fails on this variant of the tick engine. -/
theorem scr_sim_cruise_duplicates_vehicle :
    (dupSim.sim_driver uHalf 0 5).road.get 0 10 = some 0 ∧
    (dupSim.sim_driver uHalf 0 5).road.get 0 6 = some 0 ∧
    (dupSim.sim_driver uHalf 0 5).road.get 0 5 = none := by
  refine ⟨?_, ?_, ?_⟩ <;> decide

/-- Claim C2 (code_bug evidence).  For the blocked sober driver of
blockedSoberSim, a hit on the incident roll (stream uZero) removes the
vehicle from the grid (cell (0,6) stays empty and id 0 is nowhere), while a
miss (stream uHalf) advances it to cell (0,6): the resulting grids differ
depending on the incident roll, so the roll is not a pure observation. -/
theorem scr_incident_roll_changes_grid :
    (blockedSoberSim.sim_driver uZero 0 5).crashes = [5] ∧
    (blockedSoberSim.sim_driver uZero 0 5).road.get 0 6 = none ∧
    (blockedSoberSim.sim_driver uZero 0 5).road.road =
      emptyRoad.set 0 (emptyLane.set 7 (some 1)) ∧
    (blockedSoberSim.sim_driver uHalf 0 5).crashes = [] ∧
    (blockedSoberSim.sim_driver uHalf 0 5).road.get 0 6 = some 0 := by
  refine ⟨?_, ?_, ?_, ?_, ?_⟩ <;> decide

/-- Claim C3 (code_bug evidence).  The blocked drunk driver of
blockedDrunkSim reaches the no-room case (clear run 1, at most its follow
distance), where the claim requires it to advance to cell (0,6).  Instead,
because the 1-cell advance sits in the dangling else of the crash-roll
chain, which a drunk driver never reaches, the vehicle is written nowhere
and the origin is cleared: the resulting road contains only the leader, and
no exit record or crash record is produced. -/
theorem scr_blocked_drunk_vehicle_vanishes :
    (blockedDrunkSim.sim_driver uHalf 0 5).road.road =
      emptyRoad.set 0 (emptyLane.set 7 (some 1)) ∧
    (blockedDrunkSim.sim_driver uHalf 0 5).crashes = [] ∧
    (blockedDrunkSim.sim_driver uHalf 0 5).data = [] := by
  refine ⟨?_, ?_, ?_⟩ <;> decide

namespace HV2

/-! Access lemmas for the grid representation, used throughout. -/

theorem Highway.get_expand (h : Highway) (lane p : Nat) :
    h.get lane p = (((h.road[lane]?).getD [])[p]?).getD none := by
  simp [Highway.get, List.getD_eq_getElem?_getD]

theorem Highway.get_isSome_bounds (h : Highway) (hwf : h.WF) {lane p : Nat}
    (hocc : (h.get lane p).isSome) : lane < h.num_lanes ∧ p < h.length := by
  rcases hwf with ⟨hlanes, hlens⟩
  rw [Highway.get_expand] at hocc
  by_cases hl : lane < h.road.length
  · have hln : h.road[lane]? = some h.road[lane] := List.getElem?_eq_getElem hl
    rw [hln] at hocc
    have hmem : h.road[lane] ∈ h.road := List.getElem_mem hl
    have hlen : (h.road[lane]).length = h.length := hlens _ hmem
    by_cases hp : p < (h.road[lane]).length
    · exact ⟨by omega, by omega⟩
    · rw [Option.getD_some] at hocc
      have : (h.road[lane])[p]? = none := by
        exact List.getElem?_eq_none (by omega)
      rw [this] at hocc
      simp at hocc
  · have : h.road[lane]? = none := List.getElem?_eq_none (by omega)
    rw [this] at hocc
    simp at hocc

theorem Highway.set_num_lanes (h : Highway) (l p : Nat) (v : Option Nat) :
    (h.set l p v).num_lanes = h.num_lanes := rfl

theorem Highway.set_length (h : Highway) (l p : Nat) (v : Option Nat) :
    (h.set l p v).length = h.length := rfl

theorem Highway.WF_set (h : Highway) (hwf : h.WF) {l : Nat} (hl : l < h.num_lanes)
    (p : Nat) (v : Option Nat) : (h.set l p v).WF := by
  rcases hwf with ⟨hlanes, hlens⟩
  constructor
  · simp [Highway.set, hlanes]
  · intro ln hln
    simp only [Highway.set] at hln
    rcases List.mem_or_eq_of_mem_set hln with hmem | heq
    · exact hlens _ hmem
    · subst heq
      rw [List.length_set]
      have hlr : l < h.road.length := by omega
      have : h.road.getD l [] = h.road[l] := by
        simp [List.getD_eq_getElem?_getD, List.getElem?_eq_getElem hlr]
      rw [this]
      exact hlens _ (List.getElem_mem hlr)

theorem Highway.get_set_pt (h : Highway) (hwf : h.WF) {l p : Nat}
    (hl : l < h.num_lanes) (hp : p < h.length) (v : Option Nat) (l2 p2 : Nat) :
    (h.set l p v).get l2 p2 = if l2 = l ∧ p2 = p then v else h.get l2 p2 := by
  rcases hwf with ⟨hlanes, hlens⟩
  have hlr : l < h.road.length := by omega
  have hgetl : h.road[l]? = some h.road[l] := List.getElem?_eq_getElem hlr
  have hlnD : h.road.getD l [] = h.road[l] := by
    simp [List.getD_eq_getElem?_getD, hgetl]
  have hlen : (h.road[l]).length = h.length := hlens _ (List.getElem_mem hlr)
  by_cases hl2 : l2 = l
  · subst hl2
    rw [Highway.get_expand, Highway.get_expand]
    simp only [Highway.set, hlnD]
    rw [List.getElem?_set_eq_of_lt _ hlr, Option.getD_some, List.getElem?_set]
    by_cases hp2 : p2 = p
    · subst hp2
      simp [hlen, hp, hgetl]
    · rw [if_neg (fun hc => hp2 hc.symm), if_neg (by tauto)]
      simp [hgetl]
  · rw [Highway.get_expand, Highway.get_expand]
    simp only [Highway.set, hlnD]
    rw [List.getElem?_set_ne (fun hc => hl2 hc.symm), if_neg (by tauto)]

end HV2

namespace HV2

/-! Characterization of the clear-run scan (Highway.safe_distance_within). -/

theorem sdwGo_total (road : List (List (Option Nat))) (lane L k : Nat)
    (ln : List (Option Nat)) (hlane : road[lane]? = some ln) (hlen : ln.length = L) :
    ∀ fuel i x, ∃ y, sdwGo road lane L k i x fuel = some y ∧ (y = k ∨ y ≤ x + fuel) := by
  intro fuel
  induction fuel with
  | zero => exact fun i x => ⟨x, rfl, Or.inr (by omega)⟩
  | succ fuel ih =>
    intro i x
    by_cases hi : L ≤ i
    · exact ⟨k, by simp [sdwGo, hi], Or.inl rfl⟩
    · have hib : i < ln.length := by omega
      obtain ⟨c, hc⟩ : ∃ c, ln[i]? = some c := ⟨_, List.getElem?_eq_getElem hib⟩
      by_cases hcs : c.isSome
      · exact ⟨x, by simp [sdwGo, hi, hlane, hc, hcs], Or.inr (by omega)⟩
      · obtain ⟨y, hy, hyb⟩ := ih (i + 1) (x + 1)
        refine ⟨y, by simp [sdwGo, hi, hlane, hc, hcs, hy], ?_⟩
        rcases hyb with h | h
        · exact Or.inl h
        · exact Or.inr (by omega)

theorem sdwGo_all_empty (road : List (List (Option Nat))) (lane L k : Nat)
    (ln : List (Option Nat)) (hlane : road[lane]? = some ln) (hlen : ln.length = L) :
    ∀ fuel i x, i + fuel ≤ L →
      (∀ j, i ≤ j → j < i + fuel → ln[j]? = some none) →
      sdwGo road lane L k i x fuel = some (x + fuel) := by
  intro fuel
  induction fuel with
  | zero => intro i x _ _; rfl
  | succ fuel ih =>
    intro i x hle hempty
    have hi : ¬ L ≤ i := by omega
    have hc : ln[i]? = some none := hempty i (by omega) (by omega)
    have hrec := ih (i + 1) (x + 1) (by omega)
      (fun j hj1 hj2 => hempty j (by omega) (by omega))
    have harith : x + 1 + fuel = x + (fuel + 1) := by omega
    simp [sdwGo, hi, hlane, hc, hrec, harith]

theorem sdwGo_end_of_road (road : List (List (Option Nat))) (lane L k : Nat)
    (ln : List (Option Nat)) (hlane : road[lane]? = some ln) (hlen : ln.length = L) :
    ∀ fuel i x, i ≤ L → L < i + fuel →
      (∀ j, i ≤ j → j < L → ln[j]? = some none) →
      sdwGo road lane L k i x fuel = some k := by
  intro fuel
  induction fuel with
  | zero => intro i x h1 h2 _; omega
  | succ fuel ih =>
    intro i x h1 h2 hempty
    by_cases hi : L ≤ i
    · simp [sdwGo, hi]
    · have hc : ln[i]? = some none := hempty i (by omega) (by omega)
      have hrec := ih (i + 1) (x + 1) (by omega) (by omega)
        (fun j hj1 hj2 => hempty j (by omega) hj2)
      simp [sdwGo, hi, hlane, hc, hrec]

theorem sdwGo_first_occupied (road : List (List (Option Nat))) (lane L k : Nat)
    (ln : List (Option Nat)) (hlane : road[lane]? = some ln) (hlen : ln.length = L) :
    ∀ fuel i x j0, i ≤ j0 → j0 < i + fuel → j0 < L → ln[j0]? ≠ some none →
      (∀ j, i ≤ j → j < j0 → ln[j]? = some none) →
      sdwGo road lane L k i x fuel = some (x + (j0 - i)) := by
  intro fuel
  induction fuel with
  | zero => intro i x j0 h1 h2 _ _ _; omega
  | succ fuel ih =>
    intro i x j0 h1 h2 hj0L hocc hempty
    have hi : ¬ L ≤ i := by omega
    by_cases hij : i = j0
    · subst hij
      have hib : i < ln.length := by omega
      obtain ⟨c, hc⟩ : ∃ c, ln[i]? = some c := ⟨_, List.getElem?_eq_getElem hib⟩
      have hcs : c.isSome := by
        cases c with
        | none => exact absurd hc hocc
        | some v => rfl
      simp [sdwGo, hi, hlane, hc, hcs]
    · have hc : ln[i]? = some none := hempty i (by omega) (by omega)
      have hrec := ih (i + 1) (x + 1) j0 (by omega) (by omega) hj0L hocc
        (fun j hj1 hj2 => hempty j (by omega) hj2)
      have harith : x + 1 + (j0 - (i + 1)) = x + (j0 - i) := by omega
      simp [sdwGo, hi, hlane, hc, hrec, harith]

end HV2

namespace HV2

/-- Claim C5.  For every valid lane, any position pos and bound k, the gap
scan clear_run (Highway.safe_distance_within) returns some x with x ≤ k (in
particular it never faults with an out-of-range access, a none result):
it returns k when every in-range cell of the window pos+1 .. pos+k is empty
(which covers both the all-empty window and the scan running off the end of
the road), and when the window contains an occupied cell at j0 with all
cells strictly between pos and j0 empty, it returns exactly the number
j0 - (pos + 1) of consecutive empty cells before it. -/
theorem clear_run_spec (h : Highway) (hwf : h.WF) {lane : Nat}
    (hlane : lane < h.num_lanes) (pos k : Nat) :
    (∃ x, h.safe_distance_within lane pos k = some x ∧ x ≤ k) ∧
    ((∀ j, pos < j → j ≤ pos + k → j < h.length → h.get lane j = none) →
      h.safe_distance_within lane pos k = some k) ∧
    (∀ j0, pos < j0 → j0 ≤ pos + k → j0 < h.length → h.get lane j0 ≠ none →
      (∀ j, pos < j → j < j0 → h.get lane j = none) →
      h.safe_distance_within lane pos k = some (j0 - (pos + 1))) := by
  obtain ⟨hlanes, hlens⟩ := hwf
  have hlr : lane < h.road.length := by omega
  have hlane2 : h.road[lane]? = some h.road[lane] := List.getElem?_eq_getElem hlr
  have hlen : (h.road[lane]).length = h.length := hlens _ (List.getElem_mem hlr)
  have hget : ∀ j, h.get lane j = ((h.road[lane])[j]?).getD none := by
    intro j
    rw [Highway.get_expand, hlane2]
    rfl
  have hempty_iff : ∀ j, j < h.length →
      (h.get lane j = none ↔ (h.road[lane])[j]? = some none) := by
    intro j hj
    have hjb : j < (h.road[lane]).length := by omega
    obtain ⟨c, hc⟩ : ∃ c, (h.road[lane])[j]? = some c := ⟨_, List.getElem?_eq_getElem hjb⟩
    rw [hget, hc]
    simp
  refine ⟨?_, ?_, ?_⟩
  · obtain ⟨y, hy, hb⟩ := sdwGo_total h.road lane h.length k _ hlane2 hlen k (pos + 1) 0
    exact ⟨y, hy, by omega⟩
  · intro hemp
    by_cases hcase : pos + 1 + k ≤ h.length
    · have := sdwGo_all_empty h.road lane h.length k _ hlane2 hlen k (pos + 1) 0 hcase
        (fun j hj1 hj2 => (hempty_iff j (by omega)).mp (hemp j (by omega) (by omega) (by omega)))
      simpa using this
    · by_cases hcase2 : pos + 1 ≤ h.length
      · exact sdwGo_end_of_road h.road lane h.length k _ hlane2 hlen k (pos + 1) 0 hcase2
          (by omega)
          (fun j hj1 hj2 => (hempty_iff j hj2).mp (hemp j (by omega) (by omega) hj2))
      · cases k with
        | zero => rfl
        | succ k2 =>
          show sdwGo h.road lane h.length (k2 + 1) (pos + 1) 0 (k2 + 1) = some (k2 + 1)
          simp [sdwGo, show h.length ≤ pos + 1 by omega]
  · intro j0 h1 h2 h3 hocc hbefore
    have := sdwGo_first_occupied h.road lane h.length k _ hlane2 hlen k (pos + 1) 0 j0
      (by omega) (by omega) (by omega)
      (fun hc => hocc ((hempty_iff j0 h3).mpr hc))
      (fun j hj1 hj2 => (hempty_iff j (by omega)).mp (hbefore j (by omega) hj2))
    simpa using this

/-- Witness for clear_run_spec: on demoHw (car at cell (0,3)), a scan from
position 0 with bound 9 returns some value at most 9, and since the first
occupied cell of the window is 3 with cells 1 and 2 empty, it returns
exactly 2. -/
theorem clear_run_spec_witness :
    demoHw.WF ∧ 0 < demoHw.num_lanes ∧
    (∃ x, demoHw.safe_distance_within 0 0 9 = some x ∧ x ≤ 9) ∧
    demoHw.safe_distance_within 0 0 9 = some 2 :=
  ⟨⟨by decide, by decide⟩, by decide,
   (clear_run_spec demoHw ⟨by decide, by decide⟩ (by decide) 0 9).1,
   (clear_run_spec demoHw ⟨by decide, by decide⟩ (by decide) 0 9).2.2 3 (by decide)
     (by decide) (by decide) (by decide)
     (by intro j h1 h2; interval_cases j <;> decide)⟩

end HV2

namespace HV2

/-! Behaviour of the lane-change safety scans at the boundaries. -/

theorem scan_foldl_start_none (road : List (List (Option Nat))) (lane : Int) :
    ∀ ks : List Int, ks.foldl (scanAcc road lane) none = none := by
  intro ks
  induction ks with
  | nil => rfl
  | cons a t ih => simpa [scanAcc] using ih

theorem scan_foldl_none_of_mem (road : List (List (Option Nat))) (lane : Int) :
    ∀ (ks : List Int) (acc : Option Bool),
      (∃ k ∈ ks, pyCellGet road lane k = none) →
      ks.foldl (scanAcc road lane) acc = none := by
  intro ks
  induction ks with
  | nil =>
    rintro acc ⟨k, hk, _⟩
    simp at hk
  | cons a t ih =>
    rintro acc ⟨k, hk, hnone⟩
    rcases List.mem_cons.mp hk with heq | hmem
    · subst heq
      have hstep : scanAcc road lane acc k = none := by
        cases acc <;> simp [scanAcc, hnone]
      simp only [List.foldl_cons, hstep, scan_foldl_start_none]
    · simp only [List.foldl_cons]
      exact ih _ ⟨k, hmem, hnone⟩

theorem scan_foldl_all_empty (road : List (List (Option Nat))) (lane : Int) :
    ∀ ks : List Int, (∀ k ∈ ks, pyCellGet road lane k = some none) →
      ks.foldl (scanAcc road lane) (some true) = some true := by
  intro ks
  induction ks with
  | nil => intro _; rfl
  | cons a t ih =>
    intro hall
    have ha := hall a (List.mem_cons_self a t)
    have hstep : scanAcc road lane (some true) a = some true := by
      simp [scanAcc, ha]
    simp only [List.foldl_cons, hstep]
    exact ih (fun k hk => hall k (List.mem_cons_of_mem _ hk))

theorem scan_foldl_true_start (road : List (List (Option Nat))) (lane : Int) :
    ∀ (ks : List Int) (acc : Option Bool),
      ks.foldl (scanAcc road lane) acc = some true → acc = some true := by
  intro ks
  induction ks with
  | nil => exact fun acc h => h
  | cons a t ih =>
    intro acc h
    simp only [List.foldl_cons] at h
    have hstep := ih _ h
    cases acc with
    | none => simp [scanAcc] at hstep
    | some b =>
      cases hc : pyCellGet road lane a with
      | none => simp [scanAcc, hc] at hstep
      | some c =>
        simp only [scanAcc, Option.bind_some, hc, Option.map_some, Option.some.injEq] at hstep
        have : b = true := by
          cases b
          · simp at hstep
          · rfl
        rw [this]

theorem pyCellGet_in_range (h : Highway) (hwf : h.WF) {l : Nat} {j : Int}
    (hl : l < h.num_lanes) (hj1 : -(h.length : Int) ≤ j) (hj2 : j < (h.length : Int)) :
    ∃ p : Nat, p < h.length ∧ pyCellGet h.road (l : Int) j = some (h.get l p) ∧
      (0 ≤ j → (p : Int) = j) ∧ (j < 0 → (p : Int) = j + h.length) := by
  obtain ⟨hlanes, hlens⟩ := hwf
  have hlr : l < h.road.length := by omega
  have hln : h.road[l]? = some h.road[l] := List.getElem?_eq_getElem hlr
  have hlane0 : pyGet h.road (l : Int) = some h.road[l] := by
    simp [pyGet, hln]
  have hlen : (h.road[l]).length = h.length := hlens _ (List.getElem_mem hlr)
  have hget : ∀ p : Nat, p < h.length → (h.road[l])[p]? = some (h.get l p) := by
    intro p hp
    have hpb : p < (h.road[l]).length := by omega
    rw [Highway.get_expand, hln, Option.getD_some, List.getElem?_eq_getElem hpb]
    simp [List.getElem?_eq_getElem hpb]
  by_cases hj : 0 ≤ j
  · refine ⟨j.toNat, by omega, ?_, fun _ => by omega, fun hneg => by omega⟩
    have hpgl : pyGet (h.road[l]) j = some (h.get l j.toNat) := by
      rw [pyGet, if_pos hj]
      exact hget j.toNat (by omega)
    simp [pyCellGet, hlane0, hpgl]
  · refine ⟨(j + h.length).toNat, by omega, ?_, fun hpos => absurd hpos hj, fun _ => by omega⟩
    have hpgl : pyGet (h.road[l]) j = some (h.get l (j + h.length).toNat) := by
      rw [pyGet, if_neg hj, if_pos (show -((h.road[l]).length : Int) ≤ j by omega), hlen]
      exact hget (j + h.length).toNat (by omega)
    simp [pyCellGet, hlane0, hpgl]

theorem pyCellGet_empty_lane (h : Highway) (hwf : h.WF) {l : Nat} {j : Int}
    (hl : l < h.num_lanes) (hemp : ∀ p, p < h.length → h.get l p = none)
    (hj1 : -(h.length : Int) ≤ j) (hj2 : j < (h.length : Int)) :
    pyCellGet h.road (l : Int) j = some none := by
  obtain ⟨p, hp, hpc, _, _⟩ := pyCellGet_in_range h hwf hl hj1 hj2
  rw [hpc, hemp p hp]

theorem pyCellGet_fault_ahead (h : Highway) (hwf : h.WF) {l : Nat} {j : Int}
    (hl : l < h.num_lanes) (hj : (h.length : Int) ≤ j) :
    pyCellGet h.road (l : Int) j = none := by
  obtain ⟨hlanes, hlens⟩ := hwf
  have hlr : l < h.road.length := by omega
  have hln : h.road[l]? = some h.road[l] := List.getElem?_eq_getElem hlr
  have hlane0 : pyGet h.road (l : Int) = some h.road[l] := by simp [pyGet, hln]
  have hlen : (h.road[l]).length = h.length := hlens _ (List.getElem_mem hlr)
  have : pyGet (h.road[l]) j = none := by
    have h0 : (0 : Int) ≤ j := by omega
    simp only [pyGet, if_pos h0]
    exact List.getElem?_eq_none (by omega)
  simp [pyCellGet, hlane0, this]

theorem srlc_fault_ahead (h : Highway) (hwf : h.WF) {lane i : Nat}
    (hn : lane + 1 < h.num_lanes) (hr : h.length ≤ i + LANE_CHANGE_SAFE_FORWARD) :
    h.safe_right_lane_change lane i = none := by
  have hr5 : h.length ≤ i + 5 := by
    simpa [LANE_CHANGE_SAFE_FORWARD, FAST] using hr
  rw [Highway.safe_right_lane_change, if_neg (by omega)]
  apply scan_foldl_none_of_mem
  refine ⟨(i : Int) + 1 + ((4 : Nat) : Int), List.mem_append_right _ ?_, ?_⟩
  · have hmem : ((i : Int) + 1 + ((4 : Nat) : Int)) ∈
        (List.range LANE_CHANGE_SAFE_FORWARD).map (fun j : Nat => (i : Int) + 1 + (j : Int)) :=
      List.mem_map.mpr ⟨4, List.mem_range.mpr (by norm_num [LANE_CHANGE_SAFE_FORWARD, FAST]), rfl⟩
    exact hmem
  · have hc : ((lane : Int) + 1) = ((lane + 1 : Nat) : Int) := by omega
    rw [hc]
    exact pyCellGet_fault_ahead h hwf hn (by omega)

theorem srlc_empty_neighbor (h : Highway) (hwf : h.WF) {lane i : Nat}
    (hn : lane + 1 < h.num_lanes) (hr : i + LANE_CHANGE_SAFE_FORWARD < h.length)
    (hemp : ∀ p, p < h.length → h.get (lane + 1) p = none) :
    h.safe_right_lane_change lane i = some true := by
  have hFi : i + 5 < h.length := by
    simpa [LANE_CHANGE_SAFE_FORWARD, FAST] using hr
  have hcast : ((lane : Int) + 1) = ((lane + 1 : Nat) : Int) := by omega
  rw [Highway.safe_right_lane_change, if_neg (by omega), hcast]
  have hstart : pyCellGet h.road ((lane + 1 : Nat) : Int) (i : Int) = some none :=
    pyCellGet_empty_lane h hwf hn hemp (by omega) (by omega)
  rw [hstart]
  apply scan_foldl_all_empty
  intro k hk
  rcases List.mem_append.mp hk with hb | hf
  · have hb2 : k ∈ (List.range LANE_CHANGE_SAFE_BACK).map
        (fun j : Nat => (i : Int) - 1 - (j : Int)) := hb
    rcases List.mem_map.mp hb2 with ⟨j, hjr, rfl⟩
    have hj : j < 5 := by
      have := List.mem_range.mp hjr
      simpa [LANE_CHANGE_SAFE_BACK, FAST] using this
    exact pyCellGet_empty_lane h hwf hn hemp (by omega) (by omega)
  · have hf2 : k ∈ (List.range LANE_CHANGE_SAFE_FORWARD).map
        (fun j : Nat => (i : Int) + 1 + (j : Int)) := hf
    rcases List.mem_map.mp hf2 with ⟨j, hjr, rfl⟩
    have hj : j < 5 := by
      have := List.mem_range.mp hjr
      simpa [LANE_CHANGE_SAFE_FORWARD, FAST] using this
    exact pyCellGet_empty_lane h hwf hn hemp (by omega) (by omega)

theorem sllc_empty_neighbor (h : Highway) (hwf : h.WF) {lane i : Nat}
    (h0 : 1 ≤ lane) (hn : lane - 1 < h.num_lanes)
    (hr : i + LANE_CHANGE_SAFE_FORWARD < h.length)
    (hemp : ∀ p, p < h.length → h.get (lane - 1) p = none) :
    h.safe_left_lane_change lane i = some true := by
  have hFi : i + 5 < h.length := by
    simpa [LANE_CHANGE_SAFE_FORWARD, FAST] using hr
  have hcast : ((lane : Int) - 1) = ((lane - 1 : Nat) : Int) := by omega
  rw [Highway.safe_left_lane_change, if_neg (by omega), hcast]
  have hstart : pyCellGet h.road ((lane - 1 : Nat) : Int) (i : Int) = some none :=
    pyCellGet_empty_lane h hwf hn hemp (by omega) (by omega)
  rw [hstart]
  apply scan_foldl_all_empty
  intro k hk
  rcases List.mem_append.mp hk with hb | hf
  · have hb2 : k ∈ (List.range LANE_CHANGE_SAFE_BACK).map
        (fun j : Nat => (i : Int) - 1 - (j : Int)) := hb
    rcases List.mem_map.mp hb2 with ⟨j, hjr, rfl⟩
    have hj : j < 5 := by
      have := List.mem_range.mp hjr
      simpa [LANE_CHANGE_SAFE_BACK, FAST] using this
    exact pyCellGet_empty_lane h hwf hn hemp (by omega) (by omega)
  · have hf2 : k ∈ (List.range LANE_CHANGE_SAFE_FORWARD).map
        (fun j : Nat => (i : Int) + 1 + (j : Int)) := hf
    rcases List.mem_map.mp hf2 with ⟨j, hjr, rfl⟩
    have hj : j < 5 := by
      have := List.mem_range.mp hjr
      simpa [LANE_CHANGE_SAFE_FORWARD, FAST] using this
    exact pyCellGet_empty_lane h hwf hn hemp (by omega) (by omega)

theorem sllc_boundary (h : Highway) (i : Nat) :
    h.safe_left_lane_change 0 i = some false := by
  simp [Highway.safe_left_lane_change]

theorem srlc_boundary (h : Highway) {lane : Nat} (hb : lane + 1 = h.num_lanes) (i : Nat) :
    h.safe_right_lane_change lane i = some false := by
  simp [Highway.safe_right_lane_change, hb]

end HV2

namespace SCR

/-- In sim_client_requests.py the right-boundary guard compares against
num_def_lanes - 1, so calling safe_right_lane_change at the true highest
lane index reads road[num_def_lanes + num_sd_lanes], an IndexError. -/
theorem srlc_top_lane_fault (hs : Highway)
    (hlen : hs.road.length = hs.num_def_lanes + hs.num_sd_lanes)
    (hsd : 1 ≤ hs.num_sd_lanes) (i : Nat) :
    hs.safe_right_lane_change (hs.num_def_lanes + hs.num_sd_lanes - 1) i = none := by
  rw [Highway.safe_right_lane_change, if_neg (by omega)]
  have hfault : pyGet hs.road
      (((hs.num_def_lanes + hs.num_sd_lanes - 1 : Nat) : Int) + 1) = none := by
    rw [pyGet, if_pos (by omega)]
    apply List.getElem?_eq_none
    omega
  have hstart : pyCellGet hs.road
      (((hs.num_def_lanes + hs.num_sd_lanes - 1 : Nat) : Int) + 1) (i : Int) = none := by
    rw [pyCellGet, hfault]
    rfl
  rw [hstart]
  exact HV2.scan_foldl_start_none hs.road _ _

end SCR

/-- Claim C4 (counterexample).  On the fully empty 2-lane highway emptyHw2,
a right-lane-change check at position 2 has a behind window requiring
indices below 0 (2 - B < 0), yet the check returns true, not false (the
negative indices wrap to the far end of the neighbor lane); and at position
7 the ahead window runs past the end of the road and the check faults
(IndexError, modelled none) instead of treating the missing cells as clear
and returning true. -/
theorem lane_change_scan_counterexample :
    ((2 : Int) - (HV2.LANE_CHANGE_SAFE_BACK : Int) < 0 ∧
      emptyHw2.safe_right_lane_change 0 2 = some true) ∧
    (emptyHw2.length ≤ 7 + HV2.LANE_CHANGE_SAFE_FORWARD ∧
      emptyHw2.safe_right_lane_change 0 7 = none) :=
  ⟨⟨by decide, by decide⟩, ⟨by decide, by decide⟩⟩

/-- Claim C4 (amended).  For a lane with a right neighbor: when the ahead
window reaches past the end of the road the check faults (returns none)
rather than treating out-of-range-ahead as clear; when the ahead window is
in range the check returns true whenever the whole neighbor lane is empty,
even when pos - B < 0 (indices below 0 in the behind window wrap
Python-style onto the end of the neighbor lane instead of forcing false);
and a car sitting in one of those wrapped end-of-lane cells does make the
check return false, as hwWrapOcc shows. -/
theorem lane_change_scan_amended (h : HV2.Highway) (hwf : h.WF) {lane i : Nat}
    (hn : lane + 1 < h.num_lanes) :
    (h.length ≤ i + HV2.LANE_CHANGE_SAFE_FORWARD →
      h.safe_right_lane_change lane i = none) ∧
    (i + HV2.LANE_CHANGE_SAFE_FORWARD < h.length →
      (∀ p, p < h.length → h.get (lane + 1) p = none) →
      h.safe_right_lane_change lane i = some true) ∧
    hwWrapOcc.safe_right_lane_change 0 2 = some false :=
  ⟨fun hr => HV2.srlc_fault_ahead h hwf hn hr,
   fun hr hemp => HV2.srlc_empty_neighbor h hwf hn hr hemp,
   by decide⟩

/-- Witness for lane_change_scan_amended at emptyHw2, lane 0: position 7
faults (7 + F reaches past the road) and position 2 returns true with the
empty neighbor lane. -/
theorem lane_change_scan_amended_witness :
    emptyHw2.WF ∧ 0 + 1 < emptyHw2.num_lanes ∧
    emptyHw2.safe_right_lane_change 0 7 = none ∧
    emptyHw2.safe_right_lane_change 0 2 = some true :=
  ⟨⟨by decide, by decide⟩, by decide,
   (lane_change_scan_amended emptyHw2 ⟨by decide, by decide⟩ (by decide)).1 (by decide),
   (lane_change_scan_amended emptyHw2 ⟨by decide, by decide⟩ (by decide)).2.1 (by decide)
     (by decide)⟩

/-- Claim C6 (counterexample).  In sim_client_requests.py the rightward
check at the highest-index lane (3 = num_def_lanes + num_sd_lanes - 1) does
not return false: the guard compares against num_def_lanes - 1 = 2, so the
call reads the nonexistent lane 4 and faults (none).  In highway_sim_V2.py
a check whose neighbor lane is fully empty still does not return true at
position 9: the ahead window leaves the road and the call faults. -/
theorem boundary_check_counterexample :
    (scrEmptyHw.num_def_lanes + scrEmptyHw.num_sd_lanes - 1 = 3 ∧
      scrEmptyHw.safe_right_lane_change 3 0 = none) ∧
    ((∀ p, p < emptyHw2.length → emptyHw2.get 1 p = none) ∧
      emptyHw2.safe_right_lane_change 0 9 = none) :=
  ⟨⟨by decide, by decide⟩, ⟨by decide, by decide⟩⟩

/-- Claim C6 (amended).  In highway_sim_V2.py the outward checks at the
boundary lanes return false without reading any cell (left from lane 0,
right from lane num_lanes - 1), and a check toward a fully empty neighbor
lane returns true exactly when the ahead window stays on the road
(pos + F < length; otherwise it faults, see lane_change_scan_amended).  In
sim_client_requests.py the right-boundary guard fires at num_def_lanes - 1
instead of the highest lane, so the rightward check at the true highest
lane faults (none) rather than returning false. -/
theorem boundary_check_amended :
    (∀ (h : HV2.Highway) (i : Nat), h.safe_left_lane_change 0 i = some false) ∧
    (∀ (h : HV2.Highway) (lane i : Nat), lane + 1 = h.num_lanes →
      h.safe_right_lane_change lane i = some false) ∧
    (∀ (h : HV2.Highway) (lane i : Nat), h.WF → lane + 1 < h.num_lanes →
      i + HV2.LANE_CHANGE_SAFE_FORWARD < h.length →
      (∀ p, p < h.length → h.get (lane + 1) p = none) →
      h.safe_right_lane_change lane i = some true) ∧
    (∀ (h : HV2.Highway) (lane i : Nat), h.WF → 1 ≤ lane → lane - 1 < h.num_lanes →
      i + HV2.LANE_CHANGE_SAFE_FORWARD < h.length →
      (∀ p, p < h.length → h.get (lane - 1) p = none) →
      h.safe_left_lane_change lane i = some true) ∧
    (∀ (hs : SCR.Highway) (i : Nat),
      hs.road.length = hs.num_def_lanes + hs.num_sd_lanes → 1 ≤ hs.num_sd_lanes →
      hs.safe_right_lane_change (hs.num_def_lanes + hs.num_sd_lanes - 1) i = none) :=
  ⟨fun h i => HV2.sllc_boundary h i,
   fun h lane i hb => HV2.srlc_boundary h hb i,
   fun h lane i hwf hn hr hemp => HV2.srlc_empty_neighbor h hwf hn hr hemp,
   fun h lane i hwf h0 hn hr hemp => HV2.sllc_empty_neighbor h hwf h0 hn hr hemp,
   fun hs i hlen hsd => SCR.srlc_top_lane_fault hs hlen hsd i⟩

/-- Witness for boundary_check_amended: each part applied at a concrete
input of emptyHw2 or scrEmptyHw. -/
theorem boundary_check_amended_witness :
    emptyHw2.safe_left_lane_change 0 3 = some false ∧
    emptyHw2.safe_right_lane_change 1 3 = some false ∧
    emptyHw2.safe_right_lane_change 0 2 = some true ∧
    emptyHw2.safe_left_lane_change 1 2 = some true ∧
    scrEmptyHw.safe_right_lane_change (scrEmptyHw.num_def_lanes +
      scrEmptyHw.num_sd_lanes - 1) 0 = none :=
  ⟨boundary_check_amended.1 emptyHw2 3,
   boundary_check_amended.2.1 emptyHw2 1 3 (by decide),
   boundary_check_amended.2.2.1 emptyHw2 0 2 ⟨by decide, by decide⟩ (by decide) (by decide)
     (by decide),
   boundary_check_amended.2.2.2.1 emptyHw2 1 2 ⟨by decide, by decide⟩ (by decide) (by decide)
     (by decide) (by decide),
   boundary_check_amended.2.2.2.2 scrEmptyHw 0 (by decide) (by decide)⟩

/-- Claim C7.  A vehicle whose projected advance reaches the end of the road
(speed + i at least road_length - 1) is removed from the grid before any
other per-vehicle processing: the resulting state clears exactly its cell,
stamps exit statistics on the driver object (exit_stamp), appends the
driver's output record to the exit data, and does nothing else; its cell
reads EMPTY afterwards, the stamped distance equals the road length (the
code stores the constant HIGHWAY_LENGTH, which the constructor makes the
road length), the travel time is final tick minus arrival tick, the average
speed is distance divided by travel time, and no random draw is consumed
(rix is unchanged: no further processing of the vehicle this tick). -/
theorem exit_path_spec (s : HV2.Sim) (u : Nat → ℚ) {lane i did : Nat}
    (hwf : s.road.WF) (hocc : s.road.get lane i = some did)
    (hexit : s.road.length - 1 ≤ (s.store did).speed + i) :
    s.sim_driver u lane i =
      { s with
        road := s.road.set lane i none
        store := updStore s.store did (HV2.exit_stamp (s.store did) s.current_step)
        data := s.data ++ [(HV2.exit_stamp (s.store did) s.current_step).output_data] } ∧
    (s.sim_driver u lane i).road.get lane i = none ∧
    (s.road.length = HV2.HIGHWAY_LENGTH →
      (HV2.exit_stamp (s.store did) s.current_step).final_dist = s.road.length) ∧
    (HV2.exit_stamp (s.store did) s.current_step).travel_time =
      ((HV2.exit_stamp (s.store did) s.current_step).final_time : Int) -
        ((s.store did).arrive_time : Int) ∧
    (HV2.exit_stamp (s.store did) s.current_step).avg_speed =
      ((HV2.exit_stamp (s.store did) s.current_step).final_dist : ℚ) /
        (((HV2.exit_stamp (s.store did) s.current_step).travel_time : Int) : ℚ) ∧
    (s.sim_driver u lane i).rix = s.rix := by
  have hmain : s.sim_driver u lane i =
      { s with
        road := s.road.set lane i none
        store := updStore s.store did (HV2.exit_stamp (s.store did) s.current_step)
        data := s.data ++ [(HV2.exit_stamp (s.store did) s.current_step).output_data] } := by
    rw [HV2.Sim.sim_driver, hocc]
    simp only [if_pos hexit, HV2.exit_stamp]
  obtain ⟨hl, hp⟩ := s.road.get_isSome_bounds hwf (by rw [hocc]; rfl)
  refine ⟨hmain, ?_, ?_, ?_, ?_, ?_⟩
  · rw [hmain]
    show (s.road.set lane i none).get lane i = none
    rw [s.road.get_set_pt hwf hl hp none lane i, if_pos ⟨rfl, rfl⟩]
  · intro hlen
    rw [HV2.exit_stamp, hlen]
  · rfl
  · show (HV2.HIGHWAY_LENGTH : ℚ) / ((s.current_step : ℚ) - ((s.store did).arrive_time : ℚ)) =
      ((HV2.HIGHWAY_LENGTH : Nat) : ℚ) /
        (((s.current_step : Int) - ((s.store did).arrive_time : Int) : Int) : ℚ)
    push_cast
    rfl
  · rw [hmain]

/-- Witness for exit_path_spec: the driver at (0, 105) of exitSim exits; its
cell is cleared and no random draw is consumed. -/
theorem exit_path_spec_witness :
    exitSim.road.get 0 105 = some 0 ∧
    exitSim.road.length - 1 ≤ (exitSim.store 0).speed + 105 ∧
    exitSim.road.length = HV2.HIGHWAY_LENGTH ∧
    (exitSim.sim_driver uHalf 0 105).road.get 0 105 = none ∧
    (HV2.exit_stamp (exitSim.store 0) exitSim.current_step).final_dist =
      exitSim.road.length ∧
    (exitSim.sim_driver uHalf 0 105).rix = exitSim.rix :=
  ⟨by decide, by decide, by decide,
   (@exit_path_spec exitSim uHalf 0 105 0 ⟨by decide, by decide⟩ (by decide)
     (by decide)).2.1,
   (@exit_path_spec exitSim uHalf 0 105 0 ⟨by decide, by decide⟩ (by decide)
     (by decide)).2.2.1 (by decide),
   (@exit_path_spec exitSim uHalf 0 105 0 ⟨by decide, by decide⟩ (by decide)
     (by decide)).2.2.2.2.2⟩

namespace HV2

theorem Highway.get_set_ne_lane (h : Highway) {l l2 : Nat} (hne : l ≠ l2)
    (p : Nat) (v : Option Nat) (p2 : Nat) :
    (h.set l p v).get l2 p2 = h.get l2 p2 := by
  rw [Highway.get_expand, Highway.get_expand]
  simp only [Highway.set]
  rw [List.getElem?_set_ne hne]

/-- Iterations of the arrival loop for lanes other than 0 never touch cell
(0, 0). -/
theorem gen_fold_keeps_lane0 (u : Nat → ℚ) :
    ∀ (ks : List Nat) (p : HV2.Sim × Nat), (∀ k ∈ ks, k ≠ 0) →
      (ks.foldl (gen_lane_step u) p).1.road.get 0 0 = p.1.road.get 0 0 := by
  intro ks
  induction ks with
  | nil => intro p _; rfl
  | cons a t ih =>
    intro p hne
    simp only [List.foldl_cons]
    rw [ih _ (fun k hk => hne k (List.mem_cons_of_mem _ hk))]
    show (gen_lane_step u p a).1.road.get 0 0 = p.1.road.get 0 0
    rw [gen_lane_step]
    by_cases hr : u p.1.rix < CAR_PROBABILITY
    · simp only [if_pos hr]
      exact Highway.get_set_ne_lane _ (hne a (List.mem_cons_self a t)) _ _ _
    · simp only [if_neg hr]

end HV2

/-- Claim C9 (counterexample).  gen_new_drivers makes no occupancy check:
with entry cell (0,0) occupied by driver 7 and every arrival roll
succeeding, the new driver (id 8) is written straight over the occupant,
which disappears from the grid entirely (the resulting road holds only the
four fresh arrivals), contradicting the claim that the arrival is silently
dropped and the occupying vehicle left unchanged. -/
theorem arrival_no_check_counterexample :
    arrivalSim.road.get 0 0 = some 7 ∧
    (arrivalSim.gen_new_drivers uZero).road.road =
      [emptyLane.set 0 (some 8), emptyLane.set 0 (some 9),
       emptyLane.set 0 (some 10), emptyLane.set 0 (some 11)] :=
  ⟨by decide, by decide⟩

/-- Claim C9 (amended).  When lane 0's arrival roll succeeds,
gen_new_drivers of highway_sim_V2.py writes the fresh driver (id num_cars)
into the entry cell (0, 0) unconditionally, whatever that cell previously
held: there is no occupancy gate and an occupant is overwritten, never
queued or preserved. -/
theorem arrival_overwrite_amended (s : HV2.Sim) (u : Nat → ℚ)
    (hwf : s.road.WF) (h0 : 0 < s.road.num_lanes) (hlen : 0 < s.road.length)
    (hroll : u s.rix < HV2.CAR_PROBABILITY) :
    (s.gen_new_drivers u).road.get 0 0 = some s.num_cars := by
  rw [HV2.Sim.gen_new_drivers]
  obtain ⟨n, hn⟩ : ∃ n, s.road.num_lanes = n + 1 := ⟨s.road.num_lanes - 1, by omega⟩
  rw [hn, List.range_succ_eq_map]
  show (((List.range n).map Nat.succ).foldl (HV2.gen_lane_step u)
    (HV2.gen_lane_step u (s, s.num_cars) 0)).1.road.get 0 0 = some s.num_cars
  rw [HV2.gen_fold_keeps_lane0 u _ _ (fun k hk => by
    rcases List.mem_map.mp hk with ⟨m, _, rfl⟩
    exact Nat.succ_ne_zero m)]
  show (HV2.gen_lane_step u (s, s.num_cars) 0).1.road.get 0 0 = some s.num_cars
  rw [HV2.gen_lane_step]
  simp only [if_pos hroll]
  show (s.road.set 0 0 (some s.num_cars)).get 0 0 = some s.num_cars
  rw [s.road.get_set_pt hwf h0 hlen _ 0 0, if_pos ⟨rfl, rfl⟩]

/-- Witness for arrival_overwrite_amended at arrivalSim: the occupied entry
cell is overwritten with the fresh driver id 8. -/
theorem arrival_overwrite_amended_witness :
    arrivalSim.road.WF ∧ 0 < arrivalSim.road.num_lanes ∧ 0 < arrivalSim.road.length ∧
    uZero arrivalSim.rix < HV2.CAR_PROBABILITY ∧
    (arrivalSim.gen_new_drivers uZero).road.get 0 0 = some 8 :=
  ⟨⟨by decide, by decide⟩, by decide, by decide, by decide,
   arrival_overwrite_amended arrivalSim uZero ⟨by decide, by decide⟩ (by decide)
     (by decide) (by decide)⟩

namespace SCR

theorem set_keeps_lane3 (h : Highway) {l : Nat} (hne : l ≠ 3) (p : Nat) (v : Option Nat) :
    (h.set l p v).road.getD 3 [] = h.road.getD 3 [] := by
  simp only [Highway.set, List.getD_eq_getElem?_getD]
  rw [List.getElem?_set_ne hne]

theorem Highway.get_of_all_none (h : Highway) {l : Nat}
    (hemp : ∀ c ∈ h.road.getD l [], c = none) (i : Nat) : h.get l i = none := by
  rw [Highway.get, List.getD_eq_getElem?_getD]
  cases hc : (h.road.getD l [])[i]? with
  | none => rfl
  | some c =>
    have hlt : i < (h.road.getD l []).length := by
      by_contra hge
      rw [List.getElem?_eq_none (by omega)] at hc
      cases hc
    have h2 := List.getElem?_eq_getElem hlt
    rw [hc] at h2
    cases h2
    simpa using hemp _ (List.getElem_mem hlt)

theorem DesireTame.upd {st : Nat → Driver} (ht : DesireTame st) {did : Nat} {d : Driver}
    (hd : d.desire = Desire.cruise ∨ d.desire = Desire.laneChange) :
    DesireTame (updStore st did d) := by
  intro j
  show (if j = did then d else st j).desire = _ ∨ (if j = did then d else st j).desire = _
  by_cases hj : j = did
  · simpa [hj] using hd
  · simpa [hj] using ht j

/-- Effect envelope of sim_cruise for the lane-3 invariant: it writes only
into its own lane, keeps the lane counts, the step and car counters, and
preserves tame desires. -/
theorem cruise_shape (s : Sim) (u : Nat → ℚ) (lane i : Nat) :
    ((s.sim_cruise u lane i).road.road.getD 3 [] = s.road.road.getD 3 [] ∨ lane = 3) ∧
    (s.sim_cruise u lane i).road.num_def_lanes = s.road.num_def_lanes ∧
    (s.sim_cruise u lane i).road.num_sd_lanes = s.road.num_sd_lanes ∧
    (DesireTame s.store → DesireTame (s.sim_cruise u lane i).store) ∧
    (s.sim_cruise u lane i).current_step = s.current_step ∧
    (s.sim_cruise u lane i).num_cars = s.num_cars := by
  refine ⟨?_, ?_, ?_, ?_, ?_, ?_⟩
  · by_cases hl3 : lane = 3
    · exact Or.inr hl3
    · refine Or.inl ?_
      cases hget : s.road.get lane i with
      | none => simp only [Sim.sim_cruise, hget]
      | some did =>
        cases hsdw : s.road.safe_distance_within lane i
            ((s.store did).speed + (s.store did).safe_follow) with
        | none => simp only [Sim.sim_cruise, hget, hsdw]
        | some x =>
          simp only [Sim.sim_cruise, hget, hsdw]
          split_ifs <;> first | rfl | simp only [set_keeps_lane3 _ hl3]
  · cases hget : s.road.get lane i with
    | none => simp only [Sim.sim_cruise, hget]
    | some did =>
      cases hsdw : s.road.safe_distance_within lane i
          ((s.store did).speed + (s.store did).safe_follow) with
      | none => simp only [Sim.sim_cruise, hget, hsdw]
      | some x =>
        simp only [Sim.sim_cruise, hget, hsdw]
        split_ifs <;> rfl
  · cases hget : s.road.get lane i with
    | none => simp only [Sim.sim_cruise, hget]
    | some did =>
      cases hsdw : s.road.safe_distance_within lane i
          ((s.store did).speed + (s.store did).safe_follow) with
      | none => simp only [Sim.sim_cruise, hget, hsdw]
      | some x =>
        simp only [Sim.sim_cruise, hget, hsdw]
        split_ifs <;> rfl
  · intro ht
    cases hget : s.road.get lane i with
    | none => simp only [Sim.sim_cruise, hget]; exact ht
    | some did =>
      cases hsdw : s.road.safe_distance_within lane i
          ((s.store did).speed + (s.store did).safe_follow) with
      | none => simp only [Sim.sim_cruise, hget, hsdw]; exact ht
      | some x =>
        simp only [Sim.sim_cruise, hget, hsdw]
        split_ifs <;>
          first
            | exact ht
            | exact ht.upd (Or.inr rfl)
            | exact (ht.upd (Or.inr rfl)).upd (Or.inr rfl)
  · cases hget : s.road.get lane i with
    | none => simp only [Sim.sim_cruise, hget]
    | some did =>
      cases hsdw : s.road.safe_distance_within lane i
          ((s.store did).speed + (s.store did).safe_follow) with
      | none => simp only [Sim.sim_cruise, hget, hsdw]
      | some x =>
        simp only [Sim.sim_cruise, hget, hsdw]
        split_ifs <;> rfl
  · cases hget : s.road.get lane i with
    | none => simp only [Sim.sim_cruise, hget]
    | some did =>
      cases hsdw : s.road.safe_distance_within lane i
          ((s.store did).speed + (s.store did).safe_follow) with
      | none => simp only [Sim.sim_cruise, hget, hsdw]
      | some x =>
        simp only [Sim.sim_cruise, hget, hsdw]
        split_ifs <;> rfl

end SCR

namespace SCR

theorem updStore_self {α : Type} (st : Nat → α) (i : Nat) (d : α) :
    updStore st i d i = d := by
  simp [updStore]

theorem updStore_other {α : Type} (st : Nat → α) (i : Nat) (d : α) {j : Nat}
    (hj : j ≠ i) : updStore st i d j = st j := by
  simp [updStore, hj]

theorem srlc_true_guard {h : Highway} {lane i : Nat}
    (ht : h.safe_right_lane_change lane i = some true) : lane + 1 ≠ h.num_def_lanes := by
  intro hc
  rw [Highway.safe_right_lane_change, if_pos hc] at ht
  exact Bool.false_ne_true (Option.some.inj ht)

theorem crash_check_fields (s : Sim) (u : Nat → ℚ) (d : Driver) (r : ℚ) :
    (s.crash_check u d r).1.road = s.road ∧
    (s.crash_check u d r).1.store = s.store ∧
    (s.crash_check u d r).1.current_step = s.current_step ∧
    (s.crash_check u d r).1.num_cars = s.num_cars := by
  simp only [Sim.crash_check]
  split_ifs <;> exact ⟨rfl, rfl, rfl, rfl⟩

theorem resolve_fields (s : Sim) (did : Nat) (d : Driver) (r : ℚ) (lane i : Nat) :
    (s.resolve_direction did d r lane i).road = s.road ∧
    (s.resolve_direction did d r lane i).current_step = s.current_step ∧
    (s.resolve_direction did d r lane i).num_cars = s.num_cars ∧
    ((s.resolve_direction did d r lane i).store = s.store ∨
      (s.resolve_direction did d r lane i).store =
        updStore s.store did { d with desire := Desire.laneChangeLeft } ∨
      ((s.resolve_direction did d r lane i).store =
        updStore s.store did { d with desire := Desire.laneChangeRight } ∧
        s.road.safe_right_lane_change lane i = some true)) := by
  rw [Sim.resolve_direction]
  split_ifs <;>
    refine ⟨rfl, rfl, rfl, ?_⟩ <;>
      first
        | exact Or.inl rfl
        | exact Or.inr (Or.inl rfl)
        | exact Or.inr (Or.inr ⟨rfl, by assumption⟩)

theorem execute_shape (s : Sim) (u : Nat → ℚ) (did lane i : Nat) (hlane : lane ≤ 2)
    (hnd : s.road.num_def_lanes = 3)
    (hd3 : (s.store did).desire = Desire.cruise ∨
      (s.store did).desire = Desire.laneChange ∨
      (s.store did).desire = Desire.laneChangeLeft ∨
      ((s.store did).desire = Desire.laneChangeRight ∧
        s.road.safe_right_lane_change lane i = some true))
    (hoth : ∀ j, j ≠ did → ((s.store j).desire = Desire.cruise ∨
      (s.store j).desire = Desire.laneChange)) :
    (s.execute_desire u did lane i).road.road.getD 3 [] = s.road.road.getD 3 [] ∧
    (s.execute_desire u did lane i).road.num_def_lanes = s.road.num_def_lanes ∧
    (s.execute_desire u did lane i).road.num_sd_lanes = s.road.num_sd_lanes ∧
    DesireTame (s.execute_desire u did lane i).store ∧
    (s.execute_desire u did lane i).current_step = s.current_step ∧
    (s.execute_desire u did lane i).num_cars = s.num_cars := by
  rcases hd3 with hc | hc | hc | ⟨hc, hsr⟩
  · have htame : DesireTame s.store := fun j => by
      by_cases hj : j = did
      · subst hj; exact Or.inl hc
      · exact hoth j hj
    obtain ⟨c1, c2, c3, c4, c5, c6⟩ := cruise_shape s u lane i
    simp only [Sim.execute_desire, hc]
    exact ⟨c1.elim (fun h => h) (fun h3 => absurd h3 (by omega)), c2, c3, c4 htame, c5, c6⟩
  · have htame : DesireTame s.store := fun j => by
      by_cases hj : j = did
      · subst hj; exact Or.inr hc
      · exact hoth j hj
    obtain ⟨c1, c2, c3, c4, c5, c6⟩ := cruise_shape s u lane i
    simp only [Sim.execute_desire, hc]
    exact ⟨c1.elim (fun h => h) (fun h3 => absurd h3 (by omega)), c2, c3, c4 htame, c5, c6⟩
  · simp only [Sim.execute_desire, hc]
    obtain ⟨c1, c2, c3, c4, c5, c6⟩ := cruise_shape
      { s with
        road := (s.road.set (lane - 1) i (some did)).set lane i none
        store := updStore s.store did { s.store did with desire := Desire.cruise } }
      u (lane - 1) i
    have htame2 : DesireTame (updStore s.store did
        { s.store did with desire := Desire.cruise }) := fun j => by
      by_cases hj : j = did
      · subst hj; rw [updStore_self]; exact Or.inl rfl
      · rw [updStore_other _ _ _ hj]; exact hoth j hj
    refine ⟨?_, ?_, ?_, c4 htame2, c5, c6⟩
    · exact c1.elim
        (fun h => h.trans (by
          show ((s.road.set (lane - 1) i (some did)).set lane i none).road.getD 3 [] =
            s.road.road.getD 3 []
          rw [set_keeps_lane3 _ (by omega), set_keeps_lane3 _ (by omega)]))
        (fun h3 => absurd h3 (by omega))
    · exact c2
    · exact c3
  · have hne3 : lane + 1 ≠ 3 := by
      have := srlc_true_guard hsr
      omega
    simp only [Sim.execute_desire, hc]
    obtain ⟨c1, c2, c3, c4, c5, c6⟩ := cruise_shape
      { s with
        road := (s.road.set (lane + 1) i (some did)).set lane i none
        store := updStore s.store did { s.store did with desire := Desire.cruise } }
      u (lane + 1) i
    have htame2 : DesireTame (updStore s.store did
        { s.store did with desire := Desire.cruise }) := fun j => by
      by_cases hj : j = did
      · subst hj; rw [updStore_self]; exact Or.inl rfl
      · rw [updStore_other _ _ _ hj]; exact hoth j hj
    refine ⟨?_, ?_, ?_, c4 htame2, c5, c6⟩
    · exact c1.elim
        (fun h => h.trans (by
          show ((s.road.set (lane + 1) i (some did)).set lane i none).road.getD 3 [] =
            s.road.road.getD 3 []
          rw [set_keeps_lane3 _ (by omega), set_keeps_lane3 _ hne3]))
        (fun h3 => absurd h3 hne3)
    · exact c2
    · exact c3

end SCR

namespace SCR

/-- Effect envelope of sim_driver at a lane at most 2: the lane-3 cells, the
lane counts, the step and car counters are preserved, and desires stay
tame. -/
theorem driver_shape (s : Sim) (u : Nat → ℚ) {lane i : Nat}
    (htame : DesireTame s.store) (hnd : s.road.num_def_lanes = 3) (hlane : lane ≤ 2) :
    (s.sim_driver u lane i).road.road.getD 3 [] = s.road.road.getD 3 [] ∧
    (s.sim_driver u lane i).road.num_def_lanes = s.road.num_def_lanes ∧
    (s.sim_driver u lane i).road.num_sd_lanes = s.road.num_sd_lanes ∧
    DesireTame (s.sim_driver u lane i).store ∧
    (s.sim_driver u lane i).current_step = s.current_step ∧
    (s.sim_driver u lane i).num_cars = s.num_cars := by
  cases hget : s.road.get lane i with
  | none =>
    have he : s.sim_driver u lane i = s := by
      rw [Sim.sim_driver, hget]
    rw [he]
    exact ⟨rfl, rfl, rfl, htame, rfl, rfl⟩
  | some did =>
    by_cases hexit : s.road.length - 1 ≤ (s.store did).speed + i
    · have he : s.sim_driver u lane i =
          { s with
            road := s.road.set lane i none
            store := updStore s.store did
              { s.store did with
                final_time := s.current_step
                final_dist := HIGHWAY_LENGTH
                travel_time := (s.current_step : Int) - ((s.store did).arrive_time : Int)
                avg_speed := (HIGHWAY_LENGTH : ℚ) /
                  ((s.current_step : ℚ) - ((s.store did).arrive_time : ℚ)) }
            data := s.data ++
              [({ s.store did with
                  final_time := s.current_step
                  final_dist := HIGHWAY_LENGTH
                  travel_time := (s.current_step : Int) - ((s.store did).arrive_time : Int)
                  avg_speed := (HIGHWAY_LENGTH : ℚ) /
                    ((s.current_step : ℚ) -
                      ((s.store did).arrive_time : ℚ)) } : Driver).output_data] } := by
        rw [Sim.sim_driver, hget]
        simp only [if_pos hexit]
      rw [he]
      refine ⟨set_keeps_lane3 _ (by omega) _ _, rfl, rfl, ?_, rfl, rfl⟩
      exact htame.upd (by
        show (s.store did).desire = Desire.cruise ∨ (s.store did).desire = Desire.laneChange
        exact htame did)
    · have he : s.sim_driver u lane i =
          (((({ s with rix := s.rix + 1 } : Sim)).crash_check u (s.store did)
            (u s.rix)).1.resolve_direction did (s.store did)
            ((({ s with rix := s.rix + 1 } : Sim)).crash_check u (s.store did)
              (u s.rix)).2 lane i).execute_desire u did lane i := by
        rw [Sim.sim_driver, hget]
        simp only [if_neg hexit]
      rw [he]
      obtain ⟨hcr, hcs, hcc, hcn⟩ := crash_check_fields ({ s with rix := s.rix + 1 } : Sim)
        u (s.store did) (u s.rix)
      obtain ⟨hrr, hrc, hrn, hrs⟩ := resolve_fields
        ((({ s with rix := s.rix + 1 } : Sim)).crash_check u (s.store did) (u s.rix)).1
        did (s.store did)
        ((({ s with rix := s.rix + 1 } : Sim)).crash_check u (s.store did) (u s.rix)).2
        lane i
      set s2 := (((({ s with rix := s.rix + 1 } : Sim)).crash_check u (s.store did)
        (u s.rix)).1.resolve_direction did (s.store did)
        ((({ s with rix := s.rix + 1 } : Sim)).crash_check u (s.store did)
          (u s.rix)).2 lane i) with hs2
      have hnd2 : s2.road.num_def_lanes = 3 := by
        rw [hrr, hcr]
        exact hnd
      have hd3 : (s2.store did).desire = Desire.cruise ∨
          (s2.store did).desire = Desire.laneChange ∨
          (s2.store did).desire = Desire.laneChangeLeft ∨
          ((s2.store did).desire = Desire.laneChangeRight ∧
            s2.road.safe_right_lane_change lane i = some true) := by
        rcases hrs with hst | hst | ⟨hst, hsr2⟩
        · rcases htame did with h | h
          · exact Or.inl (by rw [hst, hcs]; exact h)
          · exact Or.inr (Or.inl (by rw [hst, hcs]; exact h))
        · exact Or.inr (Or.inr (Or.inl (by rw [hst, updStore_self])))
        · refine Or.inr (Or.inr (Or.inr ⟨by rw [hst, updStore_self], ?_⟩))
          rw [hrr]
          exact hsr2
      have hoth : ∀ j, j ≠ did → ((s2.store j).desire = Desire.cruise ∨
          (s2.store j).desire = Desire.laneChange) := by
        intro j hj
        rcases hrs with hst | hst | ⟨hst, h2⟩
        · rw [hst, hcs]; exact htame j
        · rw [hst, updStore_other _ _ _ hj, hcs]; exact htame j
        · rw [hst, updStore_other _ _ _ hj, hcs]; exact htame j
      obtain ⟨e1, e2, e3, e4, e5, e6⟩ := execute_shape s2 u did lane i hlane hnd2 hd3 hoth
      refine ⟨?_, ?_, ?_, e4, ?_, ?_⟩
      · exact e1.trans (by rw [hrr, hcr])
      · exact e2.trans (by rw [hrr, hcr])
      · exact e3.trans (by rw [hrr, hcr])
      · exact e5.trans (hrc.trans hcc)
      · exact e6.trans (hrn.trans hcn)

end SCR

namespace SCR

theorem foldl_inv {α σ : Type} (P : σ → Prop) (f : σ → α → σ) :
    ∀ (xs : List α) (s : σ), (∀ x ∈ xs, ∀ t, P t → P (f t x)) → P s → P (xs.foldl f s) := by
  intro xs
  induction xs with
  | nil => exact fun s _ hs => hs
  | cons a t ih =>
    intro s hstep hs
    simp only [List.foldl_cons]
    exact ih _ (fun x hx t2 ht2 => hstep x (List.mem_cons_of_mem _ hx) t2 ht2)
      (hstep a (List.mem_cons_self a t) s hs)

theorem Inv_get3 {s : Sim} (hInv : Inv s) (i : Nat) : s.road.get 3 i = none :=
  Highway.get_of_all_none s.road hInv.2.2.1 i

theorem pass_step_inv (u : Nat → ℚ) (i : Nat) {k : Nat} (hk : k < 4) {s : Sim}
    (hInv : Inv s) :
    Inv (if (s.road.get k i).isSome then s.sim_driver u k i else s) := by
  by_cases hocc : (s.road.get k i).isSome
  · rw [if_pos hocc]
    obtain ⟨hnd, hns, hl3, htame⟩ := hInv
    by_cases hk3 : k = 3
    · subst hk3
      rw [Inv_get3 ⟨hnd, hns, hl3, htame⟩ i] at hocc
      cases hocc
    · have hk2 : k ≤ 2 := by omega
      obtain ⟨d1, d2, d3, d4, d5, d6⟩ := driver_shape s u htame hnd hk2
      refine ⟨d2.trans hnd, d3.trans hns, ?_, d4⟩
      rw [d1]
      exact hl3
  · rw [if_neg hocc]
    exact hInv

theorem lane_pass_inv (s : Sim) (u : Nat → ℚ) (i : Nat) (hInv : Inv s) :
    Inv (s.lane_pass u i) := by
  rw [Sim.lane_pass]
  have h4 : s.road.num_def_lanes + s.road.num_sd_lanes = 4 := by
    obtain ⟨hnd, hns, h3, ht⟩ := hInv
    omega
  rw [h4]
  exact foldl_inv Inv _ (List.range 4) s
    (fun k hk t ht => pass_step_inv u i (List.mem_range.mp hk) ht) hInv

theorem gen_def_step_inv (u : Nat → ℚ) (dcp : ℚ) {lane : Nat} (hlane : lane < 3)
    {p : Sim × Nat} (hInv : Inv p.1) : Inv (gen_def_step u dcp p lane).1 := by
  obtain ⟨hnd, hns, hl3, htame⟩ := hInv
  simp only [gen_def_step]
  split_ifs <;>
    first
      | exact ⟨hnd, hns, hl3, htame⟩
      | exact ⟨hnd, hns, by rw [set_keeps_lane3 _ (by omega)]; exact hl3,
          htame.upd (Or.inl rfl)⟩

theorem gen_sd_step_inv (u : Nat → ℚ) (scp : ℚ) {lane : Nat} (hlane : lane < 1)
    {p : Sim × Nat} (hInv : Inv p.1) : Inv (gen_sd_step u scp p lane).1 := by
  obtain ⟨hnd, hns, hl3, htame⟩ := hInv
  have hnd2 : ({ p.1 with rix := p.1.rix + 1 } : Sim).road.num_def_lanes = 3 := hnd
  simp only [gen_sd_step]
  split_ifs
  · refine ⟨hnd, hns, ?_, htame.upd (Or.inl rfl)⟩
    rw [set_keeps_lane3 _ (by rw [hnd2]; omega)]
    exact hl3
  · exact ⟨hnd, hns, hl3, htame⟩

theorem gen_inv (s : Sim) (u : Nat → ℚ) (dcp scp : ℚ) (hInv : Inv s) :
    Inv (s.gen_new_drivers u dcp scp) := by
  have hnd := hInv.1
  simp only [Sim.gen_new_drivers]
  set out1 := (List.range s.road.num_def_lanes).foldl (gen_def_step u dcp)
    (s, s.num_cars) with ho1
  have h1 : Inv out1.1 := by
    rw [ho1, hnd]
    exact foldl_inv (fun p => Inv p.1) _ (List.range 3) (s, s.num_cars)
      (fun k hk t ht => gen_def_step_inv u dcp (List.mem_range.mp hk) ht) hInv
  have hsd1 : out1.1.road.num_sd_lanes = 1 := h1.2.1
  rw [hsd1]
  have h2 : Inv ((List.range 1).foldl (gen_sd_step u scp) out1).1 :=
    foldl_inv (fun p => Inv p.1) _ (List.range 1) out1
      (fun k hk t ht => gen_sd_step_inv u scp (List.mem_range.mp hk) ht) h1
  exact ⟨h2.1, h2.2.1, h2.2.2.1, h2.2.2.2⟩

theorem execute_inv (s : Sim) (u : Nat → ℚ) (dcp scp : ℚ) (hInv : Inv s) :
    Inv (s.execute_time_step u dcp scp) := by
  simp only [Sim.execute_time_step]
  exact gen_inv _ u dcp scp
    (foldl_inv Inv _ _ s (fun i _ t ht => lane_pass_inv t u i ht) hInv)

theorem tick_inv (s : Sim) (u : Nat → ℚ) (dcp scp : ℚ) (hInv : Inv s) :
    Inv (s.tick u dcp scp) := by
  simp only [Sim.tick]
  have h := execute_inv s u dcp scp hInv
  exact ⟨h.1, h.2.1, h.2.2.1, h.2.2.2⟩

theorem init_inv : Inv initSim := by
  refine ⟨rfl, rfl, by decide, fun did => Or.inl rfl⟩

theorem reachable_inv {s : Sim} (hr : Reachable s) : Inv s := by
  induction hr with
  | init => exact init_inv
  | step s u dcp scp hr ih => exact tick_inv s u dcp scp ih

/-- Claim C10.  In every reachable state of the sim_client_requests.py
simulation, the highest-index lane (index num_def_lanes + num_sd_lanes - 1,
which the configuration fixes at 3) is entirely empty: a self-driving
arrival is written at lane + num_def_lanes - 1 = 2 (the last default lane,
not the self-driving lane), and rightward lane changes out of lane
num_def_lanes - 1 = 2 are rejected by the boundary guard, so no vehicle
ever enters lane 3. -/
theorem sd_top_lane_empty (s : Sim) (hr : Reachable s) :
    s.road.num_def_lanes + s.road.num_sd_lanes - 1 = 3 ∧
    ∀ i, s.road.get (s.road.num_def_lanes + s.road.num_sd_lanes - 1) i = none := by
  obtain ⟨hnd, hns, hl3, ht⟩ := reachable_inv hr
  have h3 : s.road.num_def_lanes + s.road.num_sd_lanes - 1 = 3 := by omega
  refine ⟨h3, fun i => ?_⟩
  rw [h3]
  exact Highway.get_of_all_none s.road hl3 i

/-- Witness for sd_top_lane_empty at the initial state, whose reachability
is the base constructor. -/
theorem sd_top_lane_empty_witness :
    initSim.road.num_def_lanes + initSim.road.num_sd_lanes - 1 = 3 ∧
    ∀ i, initSim.road.get (initSim.road.num_def_lanes +
      initSim.road.num_sd_lanes - 1) i = none :=
  sd_top_lane_empty initSim Reachable.init

end SCR

namespace HV2

/-! Toward claim C8: raw effect lemmas for Highway.set without a
well-formedness hypothesis (the arrival generator may touch lanes whose
bounds are not tracked), and what a passing safety check says about the
target cell. -/

theorem Highway.get_set_ne_pos (h : Highway) (l p : Nat) (v : Option Nat) {a b : Nat}
    (hb : b ≠ p) : (h.set l p v).get a b = h.get a b := by
  rw [Highway.get_expand, Highway.get_expand]
  show (((h.road.set l ((h.road.getD l []).set p v))[a]?.getD [])[b]?).getD none =
    ((h.road[a]?.getD [])[b]?).getD none
  rw [List.getElem?_set]
  by_cases ha : l = a
  · subst ha
    by_cases hlr : l < h.road.length
    · rw [if_pos rfl, if_pos hlr]
      have hgd : h.road.getD l [] = h.road[l] := by
        simp [List.getD_eq_getElem?_getD, List.getElem?_eq_getElem hlr]
      rw [hgd, Option.getD_some, List.getElem?_set_ne (fun hc => hb hc.symm)]
      rw [List.getElem?_eq_getElem hlr, Option.getD_some]
    · rw [if_pos rfl, if_neg hlr]
      have h1 : h.road[l]? = none := List.getElem?_eq_none (by omega)
      rw [h1]
  · rw [if_neg ha]

theorem Highway.get_set_cases (h : Highway) (l p : Nat) (v : Option Nat) (a b : Nat) :
    (h.set l p v).get a b = v ∨ (h.set l p v).get a b = h.get a b := by
  rw [Highway.get_expand, Highway.get_expand]
  show (((h.road.set l ((h.road.getD l []).set p v))[a]?.getD [])[b]?).getD none = v ∨
    (((h.road.set l ((h.road.getD l []).set p v))[a]?.getD [])[b]?).getD none =
      ((h.road[a]?.getD [])[b]?).getD none
  rw [List.getElem?_set]
  by_cases ha : l = a
  · subst ha
    by_cases hlr : l < h.road.length
    · rw [if_pos rfl, if_pos hlr]
      have hgd : h.road.getD l [] = h.road[l] := by
        simp [List.getD_eq_getElem?_getD, List.getElem?_eq_getElem hlr]
      rw [hgd, Option.getD_some, List.getElem?_eq_getElem hlr, Option.getD_some]
      by_cases hbp : b = p
      · subst hbp
        by_cases hbl : b < (h.road[l]).length
        · left
          rw [List.getElem?_set_eq_of_lt _ hbl]
          rfl
        · right
          have h1 : ((h.road[l]).set b v)[b]? = none :=
            List.getElem?_eq_none (by rw [List.length_set]; omega)
          have h2 : (h.road[l])[b]? = none := List.getElem?_eq_none (by omega)
          rw [h1, h2]
      · right
        rw [List.getElem?_set_ne (fun hc => hbp hc.symm)]
    · right
      rw [if_pos rfl, if_neg hlr]
      have h1 : h.road[l]? = none := List.getElem?_eq_none (by omega)
      rw [h1]
  · right
    rw [if_neg ha]

theorem sllc_true_facts (h : Highway) (hwf : h.WF) {lane i : Nat}
    (hl : lane < h.num_lanes) (hi : i < h.length)
    (ht : h.safe_left_lane_change lane i = some true) :
    1 ≤ lane ∧ h.get (lane - 1) i = none := by
  have hlane0 : ¬ lane = 0 := by
    intro hc
    rw [Highway.safe_left_lane_change, if_pos hc] at ht
    exact Bool.false_ne_true (Option.some.inj ht)
  rw [Highway.safe_left_lane_change, if_neg hlane0] at ht
  have hstart := scan_foldl_true_start h.road ((lane : Int) - 1) _ _ ht
  refine ⟨by omega, ?_⟩
  have hcast : ((lane : Int) - 1) = ((lane - 1 : Nat) : Int) := by omega
  rw [hcast] at hstart
  obtain ⟨p, hp, hpc, hpos, _⟩ :=
    @pyCellGet_in_range h hwf (lane - 1) (i : Int) (by omega) (by omega) (by omega)
  rw [hpc] at hstart
  have hpi : p = i := by
    have := hpos (by omega)
    omega
  rw [hpi] at hstart
  have hnone : (h.get (lane - 1) i).isNone = true := by simpa using hstart
  exact Option.isNone_iff_eq_none.mp hnone

theorem srlc_true_facts (h : Highway) (hwf : h.WF) {lane i : Nat}
    (hl : lane < h.num_lanes) (hi : i < h.length)
    (ht : h.safe_right_lane_change lane i = some true) :
    lane + 1 < h.num_lanes ∧ h.get (lane + 1) i = none := by
  have hguard : ¬ lane + 1 = h.num_lanes := by
    intro hc
    rw [Highway.safe_right_lane_change, if_pos hc] at ht
    exact Bool.false_ne_true (Option.some.inj ht)
  rw [Highway.safe_right_lane_change, if_neg hguard] at ht
  have hstart := scan_foldl_true_start h.road ((lane : Int) + 1) _ _ ht
  refine ⟨by omega, ?_⟩
  have hcast : ((lane : Int) + 1) = ((lane + 1 : Nat) : Int) := by omega
  rw [hcast] at hstart
  obtain ⟨p, hp, hpc, hpos, _⟩ :=
    @pyCellGet_in_range h hwf (lane + 1) (i : Int) (by omega) (by omega) (by omega)
  rw [hpc] at hstart
  have hpi : p = i := by
    have := hpos (by omega)
    omega
  rw [hpi] at hstart
  have hnone : (h.get (lane + 1) i).isNone = true := by simpa using hstart
  exact Option.isNone_iff_eq_none.mp hnone

theorem resolve_dir_fields (s : Sim) (did : Nat) (d : Driver) (r : ℚ) (lane i : Nat) :
    (s.resolve_direction did d r lane i).road = s.road ∧
    (s.resolve_direction did d r lane i).num_cars = s.num_cars ∧
    ((s.resolve_direction did d r lane i).store = s.store ∨
      ((s.resolve_direction did d r lane i).store =
          updStore s.store did { d with desire := Desire.laneChangeLeft } ∧
        s.road.safe_left_lane_change lane i = some true) ∨
      ((s.resolve_direction did d r lane i).store =
          updStore s.store did { d with desire := Desire.laneChangeRight } ∧
        s.road.safe_right_lane_change lane i = some true)) := by
  rw [Sim.resolve_direction]
  split_ifs <;>
    refine ⟨rfl, rfl, ?_⟩ <;>
      first
        | exact Or.inl rfl
        | exact Or.inr (Or.inl ⟨rfl, by assumption⟩)
        | exact Or.inr (Or.inr ⟨rfl, by assumption⟩)

theorem speed_pos {st : Nat → Driver} (hok : StoreOK st) (j : Nat) :
    1 ≤ (st j).speed := by
  rcases (hok j).2 with h | h <;> rw [h] <;> norm_num [SLOW, FAST]

end HV2

namespace HV2

/-- Pointwise effect of Simulation.sim_cruise of highway_sim_V2.py on an
occupied cell with room ahead: the vehicle advances by some d2 with
1 ≤ d2 ≤ speed within the same lane, the origin cell is cleared, no other
cell changes, only the moved driver's desire may change (to LANE_CHANGE),
and the counters are untouched. -/
theorem cruise_effect (s : Sim) {lane i did : Nat}
    (hwf : s.road.WF) (hocc : s.road.get lane i = some did)
    (hspd1 : 1 ≤ (s.store did).speed)
    (hroom : (s.store did).speed + i + 1 ≤ s.road.length) :
    ∃ d2, 1 ≤ d2 ∧ d2 ≤ (s.store did).speed ∧ i + d2 < s.road.length ∧
      (s.sim_cruise lane i).road.WF ∧
      (∀ a b, (s.sim_cruise lane i).road.get a b =
        if a = lane ∧ b = i then none
        else if a = lane ∧ b = i + d2 then some did
        else s.road.get a b) ∧
      (∀ j, j ≠ did → (s.sim_cruise lane i).store j = s.store j) ∧
      ((s.sim_cruise lane i).store did = s.store did ∨
        (s.sim_cruise lane i).store did =
          { s.store did with desire := Desire.laneChange }) ∧
      (s.sim_cruise lane i).num_cars = s.num_cars := by
  obtain ⟨hlane, hi⟩ := s.road.get_isSome_bounds hwf (by rw [hocc]; rfl)
  have hlr : lane < s.road.road.length := by
    have := hwf.1
    omega
  have hln : s.road.road[lane]? = some s.road.road[lane] := List.getElem?_eq_getElem hlr
  have hlen : (s.road.road[lane]).length = s.road.length :=
    hwf.2 _ (List.getElem_mem hlr)
  obtain ⟨x, hx, hxb⟩ := sdwGo_total s.road.road lane s.road.length
    ((s.store did).speed + (s.store did).safe_follow) _ hln hlen
    ((s.store did).speed + (s.store did).safe_follow) (i + 1) 0
  have hxk : x ≤ (s.store did).speed + (s.store did).safe_follow := by
    rcases hxb with h | h <;> omega
  have hx' : s.road.safe_distance_within lane i
      ((s.store did).speed + (s.store did).safe_follow) = some x := hx
  by_cases h1 : x = (s.store did).speed + (s.store did).safe_follow
  · have he : s.sim_cruise lane i =
        { s with road := ((s.road.set lane (i + (s.store did).speed)
            (some did)).set lane i none) } := by
      simp only [Sim.sim_cruise, hocc, hx', if_pos h1]
    have hwf1 : (s.road.set lane (i + (s.store did).speed) (some did)).WF :=
      s.road.WF_set hwf hlane _ _
    refine ⟨(s.store did).speed, hspd1, le_refl _, by omega, ?_, ?_, ?_, ?_, ?_⟩
    · rw [he]
      exact Highway.WF_set _ hwf1 hlane _ _
    · intro a b
      rw [he]
      show ((s.road.set lane (i + (s.store did).speed) (some did)).set lane i
        none).get a b = _
      rw [Highway.get_set_pt _ hwf1 hlane hi none a b,
        Highway.get_set_pt s.road hwf hlane (by omega) (some did) a b]
    · intro j hj
      rw [he]
    · rw [he]
      exact Or.inl rfl
    · rw [he]
  · by_cases h2 : (s.store did).safe_follow < x
    · have he : s.sim_cruise lane i =
          { s with
            road := ((s.road.set lane (i + x - (s.store did).safe_follow)
              (some did)).set lane i none)
            store := updStore s.store did
              { s.store did with desire := Desire.laneChange } } := by
        simp only [Sim.sim_cruise, hocc, hx', if_neg h1, if_pos h2]
      have hpos : i + x - (s.store did).safe_follow =
          i + (x - (s.store did).safe_follow) := by omega
      rw [hpos] at he
      have hwf1 : (s.road.set lane (i + (x - (s.store did).safe_follow))
          (some did)).WF := s.road.WF_set hwf hlane _ _
      refine ⟨x - (s.store did).safe_follow, by omega, by omega, by omega,
        ?_, ?_, ?_, ?_, ?_⟩
      · rw [he]
        exact Highway.WF_set _ hwf1 hlane _ _
      · intro a b
        rw [he]
        show ((s.road.set lane (i + (x - (s.store did).safe_follow))
          (some did)).set lane i none).get a b = _
        rw [Highway.get_set_pt _ hwf1 hlane hi none a b,
          Highway.get_set_pt s.road hwf hlane (by omega) (some did) a b]
      · intro j hj
        rw [he]
        exact SCR.updStore_other _ _ _ hj
      · rw [he]
        exact Or.inr (SCR.updStore_self _ _ _)
      · rw [he]
    · have he : s.sim_cruise lane i =
          { s with
            road := (s.road.set lane (i + 1) (some did)).set lane i none
            store := updStore s.store did
              { s.store did with desire := Desire.laneChange } } := by
        simp only [Sim.sim_cruise, hocc, hx', if_neg h1, if_neg h2]
      have hwf1 : (s.road.set lane (i + 1) (some did)).WF :=
        s.road.WF_set hwf hlane _ _
      refine ⟨1, le_refl _, hspd1, by omega, ?_, ?_, ?_, ?_, ?_⟩
      · rw [he]
        exact Highway.WF_set _ hwf1 hlane _ _
      · intro a b
        rw [he]
        show ((s.road.set lane (i + 1) (some did)).set lane i none).get a b = _
        rw [Highway.get_set_pt _ hwf1 hlane hi none a b,
          Highway.get_set_pt s.road hwf hlane (by omega) (some did) a b]
      · intro j hj
        rw [he]
        exact SCR.updStore_other _ _ _ hj
      · rw [he]
        exact Or.inr (SCR.updStore_self _ _ _)
      · rw [he]

end HV2

namespace HV2

theorem storeOK_upd {st : Nat → Driver} (hok : StoreOK st) {did : Nat} {d : Driver}
    (hd : (d.desire = Desire.cruise ∨ d.desire = Desire.laneChange) ∧
      (d.speed = SLOW ∨ d.speed = FAST)) :
    StoreOK (updStore st did d) := by
  intro j
  by_cases hj : j = did
  · subst hj
    rw [SCR.updStore_self]
    exact hd
  · rw [SCR.updStore_other _ _ _ hj]
    exact hok j

/-- Effect of Simulation.sim_driver of highway_sim_V2.py on an occupied
cell, given a sound store: either the vehicle exits (exactly its own cell
is cleared), or it is moved exactly once, to a strictly larger position at
most speed cells ahead, in the same or an adjacent lane whose same-column
cell the safety check saw empty.  The store changes only at the processed
driver and stays sound, and num_cars is unchanged. -/
theorem driver_effect (s : Sim) (u : Nat → ℚ) {lane i did : Nat}
    (hwf : s.road.WF) (hok : StoreOK s.store)
    (hocc : s.road.get lane i = some did) :
    SGood (s.sim_driver u lane i) ∧
    (s.sim_driver u lane i).num_cars = s.num_cars ∧
    (∀ j, j ≠ did → (s.sim_driver u lane i).store j = s.store j) ∧
    ((∀ a b, (s.sim_driver u lane i).road.get a b =
        if a = lane ∧ b = i then none else s.road.get a b) ∨
      ∃ l2 d2, (l2 = lane ∨ l2 = lane + 1 ∨ l2 + 1 = lane) ∧
        1 ≤ d2 ∧ d2 ≤ (s.store did).speed ∧ i + d2 < s.road.length ∧
        (l2 ≠ lane → s.road.get l2 i = none) ∧
        ∀ a b, (s.sim_driver u lane i).road.get a b =
          if (a = lane ∧ b = i) ∨ (a = l2 ∧ b = i) then none
          else if a = l2 ∧ b = i + d2 then some did
          else s.road.get a b) := by
  obtain ⟨hlane, hi⟩ := s.road.get_isSome_bounds hwf (by rw [hocc]; rfl)
  by_cases hexit : s.road.length - 1 ≤ (s.store did).speed + i
  · have he : s.sim_driver u lane i =
        { s with
          road := s.road.set lane i none
          store := updStore s.store did (exit_stamp (s.store did) s.current_step)
          data := s.data ++
            [(exit_stamp (s.store did) s.current_step).output_data] } := by
      rw [Sim.sim_driver, hocc]
      simp only [if_pos hexit, exit_stamp]
    refine ⟨⟨?_, ?_⟩, ?_, ?_, Or.inl ?_⟩
    · rw [he]
      exact Highway.WF_set _ hwf hlane _ _
    · rw [he]
      show StoreOK (updStore s.store did (exit_stamp (s.store did) s.current_step))
      exact storeOK_upd hok ⟨(hok did).1, (hok did).2⟩
    · rw [he]
    · rw [he]
      intro j hj
      exact SCR.updStore_other _ _ _ hj
    · intro a b
      rw [he]
      show (s.road.set lane i none).get a b = _
      rw [Highway.get_set_pt s.road hwf hlane hi none a b]
  · have hroom : (s.store did).speed + i + 1 ≤ s.road.length := by omega
    have he : s.sim_driver u lane i =
        (({ s with rix := s.rix + 1 } : Sim).resolve_direction did (s.store did)
          (u s.rix) lane i).execute_desire did lane i := by
      rw [Sim.sim_driver, hocc]
      simp only [if_neg hexit]
    obtain ⟨hrr, hrn, hrs⟩ := resolve_dir_fields ({ s with rix := s.rix + 1 } : Sim)
      did (s.store did) (u s.rix) lane i
    set s2 := ({ s with rix := s.rix + 1 } : Sim).resolve_direction did (s.store did)
      (u s.rix) lane i with hs2
    have hroad2 : s2.road = s.road := hrr
    have hnc2 : s2.num_cars = s.num_cars := hrn
    have hwf2 : s2.road.WF := by rw [hroad2]; exact hwf
    have hocc2 : s2.road.get lane i = some did := by rw [hroad2]; exact hocc
    rcases hrs with hst | ⟨hst, hchk⟩ | ⟨hst, hchk⟩
    · -- no direction resolved: plain cruise in the same lane
      have hst' : s2.store = s.store := hst
      have hd3 := (hok did).1
      have he2 : s2.execute_desire did lane i = s2.sim_cruise lane i := by
        rcases hd3 with h | h <;>
          simp only [Sim.execute_desire, hst', h, reduceCtorEq, if_true, if_false,
            or_true, true_or, or_false, false_or]
      obtain ⟨d2, hd1, hdle, hdlt, hwfR, hform, hsoth, hsdid, hncR⟩ :=
        cruise_effect s2 hwf2 hocc2 (by rw [hst']; exact speed_pos hok did)
          (by rw [hst', hroad2]; exact hroom)
      refine ⟨⟨?_, ?_⟩, ?_, ?_, Or.inr ⟨lane, d2, Or.inl rfl, hd1, ?_, ?_, ?_, ?_⟩⟩
      · rw [he, he2]
        exact hwfR
      · rw [he, he2]
        intro j
        by_cases hj : j = did
        · subst hj
          rcases hsdid with h | h
          · rw [h, hst']
            exact hok j
          · rw [h, hst']
            exact ⟨Or.inr rfl, (hok j).2⟩
        · rw [hsoth j hj, hst']
          exact hok j
      · rw [he, he2]
        exact hncR.trans hnc2
      · rw [he, he2]
        intro j hj
        rw [hsoth j hj, hst']
      · rw [hst'] at hdle
        exact hdle
      · rw [hroad2] at hdlt
        exact hdlt
      · intro hc
        exact absurd rfl hc
      · intro a b
        rw [he, he2, hform a b, hroad2]
        by_cases hA : a = lane ∧ b = i
        · rw [if_pos hA, if_pos (Or.inl hA)]
        · rw [if_neg hA, if_neg (show ¬((a = lane ∧ b = i) ∨ (a = lane ∧ b = i)) from
            fun hc => hc.elim hA hA)]
    · -- left lane change, then cruise in lane - 1
      have hst' : s2.store =
          updStore s.store did { s.store did with desire := Desire.laneChangeLeft } := hst
      have hchk' : s.road.safe_left_lane_change lane i = some true := hchk
      obtain ⟨h1l, hLnone⟩ := sllc_true_facts s.road hwf hlane hi hchk'
      have hdes : (s2.store did).desire = Desire.laneChangeLeft := by
        rw [hst', SCR.updStore_self]
      have he2 : s2.execute_desire did lane i =
          ({ s2 with
            road := ((s2.road.set (lane - 1) i (some did)).set lane i none)
            store := updStore s2.store did
              { s2.store did with desire := Desire.cruise } } : Sim).sim_cruise
            (lane - 1) i := by
        simp only [Sim.execute_desire, hdes, reduceCtorEq, if_true, if_false,
          or_true, true_or, or_false, false_or]
      set s3 := ({ s2 with
        road := ((s2.road.set (lane - 1) i (some did)).set lane i none)
        store := updStore s2.store did
          { s2.store did with desire := Desire.cruise } } : Sim) with hs3
      have hroadw : s3.road = ((s.road.set (lane - 1) i (some did)).set lane i none) := by
        rw [hs3]
        show ((s2.road.set (lane - 1) i (some did)).set lane i none) = _
        rw [hroad2]
      have hl1n : lane - 1 < s.road.num_lanes := by omega
      have hwfin : (s.road.set (lane - 1) i (some did)).WF := s.road.WF_set hwf hl1n _ _
      have hwf3 : s3.road.WF := by
        rw [hroadw]
        exact Highway.WF_set _ hwfin hlane _ _
      have hform3 : ∀ a b, s3.road.get a b =
          if a = lane ∧ b = i then none
          else if a = lane - 1 ∧ b = i then some did
          else s.road.get a b := by
        intro a b
        rw [hroadw, Highway.get_set_pt _ hwfin hlane hi none a b,
          Highway.get_set_pt s.road hwf hl1n hi (some did) a b]
      have hocc3 : s3.road.get (lane - 1) i = some did := by
        rw [hform3 (lane - 1) i, if_neg (by omega), if_pos ⟨rfl, rfl⟩]
      have hsp3 : (s3.store did).speed = (s.store did).speed := by
        rw [hs3]
        show (updStore s2.store did { s2.store did with desire := Desire.cruise }
          did).speed = _
        rw [SCR.updStore_self]
        show (s2.store did).speed = _
        rw [hst', SCR.updStore_self]
      have hlen3 : s3.road.length = s.road.length := by
        rw [hroadw]
        rfl
      have hnc3 : s3.num_cars = s.num_cars := by
        rw [hs3]
        show s2.num_cars = s.num_cars
        exact hnc2
      have hsoth3 : ∀ j, j ≠ did → s3.store j = s.store j := by
        intro j hj
        rw [hs3]
        show updStore s2.store did { s2.store did with desire := Desire.cruise } j =
          s.store j
        rw [SCR.updStore_other _ _ _ hj, hst', SCR.updStore_other _ _ _ hj]
      have hsdid3 : s3.store did = { s.store did with desire := Desire.cruise } := by
        rw [hs3]
        show updStore s2.store did { s2.store did with desire := Desire.cruise } did = _
        rw [SCR.updStore_self, hst', SCR.updStore_self]
      obtain ⟨d2, hd1, hdle, hdlt, hwfR, hform, hsoth, hsdid, hncR⟩ :=
        cruise_effect s3 hwf3 hocc3 (by rw [hsp3]; exact speed_pos hok did)
          (by rw [hsp3, hlen3]; exact hroom)
      refine ⟨⟨?_, ?_⟩, ?_, ?_,
        Or.inr ⟨lane - 1, d2, Or.inr (Or.inr (by omega)), hd1, ?_, ?_, ?_, ?_⟩⟩
      · rw [he, he2]
        exact hwfR
      · rw [he, he2]
        intro j
        by_cases hj : j = did
        · subst hj
          rcases hsdid with h | h
          · rw [h, hsdid3]
            exact ⟨Or.inl rfl, (hok j).2⟩
          · rw [h, hsdid3]
            exact ⟨Or.inr rfl, (hok j).2⟩
        · rw [hsoth j hj, hsoth3 j hj]
          exact hok j
      · rw [he, he2]
        exact hncR.trans hnc3
      · rw [he, he2]
        intro j hj
        rw [hsoth j hj, hsoth3 j hj]
      · rw [hsp3] at hdle
        exact hdle
      · rw [hlen3] at hdlt
        exact hdlt
      · intro _
        exact hLnone
      · intro a b
        rw [he, he2, hform a b, hform3 a b]
        by_cases hA : a = lane - 1 ∧ b = i
        · rw [if_pos hA, if_pos (Or.inr hA)]
        · rw [if_neg hA]
          by_cases hB : a = lane - 1 ∧ b = i + d2
          · rw [if_pos hB, if_neg (show ¬((a = lane ∧ b = i) ∨ (a = lane - 1 ∧ b = i))
              from fun hc => hc.elim (fun h2 => by omega) (fun h2 => by omega)),
              if_pos hB]
          · rw [if_neg hB]
            by_cases hC : a = lane ∧ b = i
            · rw [if_pos hC, if_pos (Or.inl hC)]
            · rw [if_neg hC, if_neg hA, if_neg (fun hc => hc.elim hC hA), if_neg hB]
    · -- right lane change, then cruise in lane + 1
      have hst' : s2.store =
          updStore s.store did { s.store did with desire := Desire.laneChangeRight } := hst
      have hchk' : s.road.safe_right_lane_change lane i = some true := hchk
      obtain ⟨hlt, hRnone⟩ := srlc_true_facts s.road hwf hlane hi hchk'
      have hdes : (s2.store did).desire = Desire.laneChangeRight := by
        rw [hst', SCR.updStore_self]
      have he2 : s2.execute_desire did lane i =
          ({ s2 with
            road := ((s2.road.set (lane + 1) i (some did)).set lane i none)
            store := updStore s2.store did
              { s2.store did with desire := Desire.cruise } } : Sim).sim_cruise
            (lane + 1) i := by
        simp only [Sim.execute_desire, hdes, reduceCtorEq, if_true, if_false,
          or_true, true_or, or_false, false_or]
      set s3 := ({ s2 with
        road := ((s2.road.set (lane + 1) i (some did)).set lane i none)
        store := updStore s2.store did
          { s2.store did with desire := Desire.cruise } } : Sim) with hs3
      have hroadw : s3.road = ((s.road.set (lane + 1) i (some did)).set lane i none) := by
        rw [hs3]
        show ((s2.road.set (lane + 1) i (some did)).set lane i none) = _
        rw [hroad2]
      have hwfin : (s.road.set (lane + 1) i (some did)).WF := s.road.WF_set hwf hlt _ _
      have hwf3 : s3.road.WF := by
        rw [hroadw]
        exact Highway.WF_set _ hwfin hlane _ _
      have hform3 : ∀ a b, s3.road.get a b =
          if a = lane ∧ b = i then none
          else if a = lane + 1 ∧ b = i then some did
          else s.road.get a b := by
        intro a b
        rw [hroadw, Highway.get_set_pt _ hwfin hlane hi none a b,
          Highway.get_set_pt s.road hwf hlt hi (some did) a b]
      have hocc3 : s3.road.get (lane + 1) i = some did := by
        rw [hform3 (lane + 1) i, if_neg (by omega), if_pos ⟨rfl, rfl⟩]
      have hsp3 : (s3.store did).speed = (s.store did).speed := by
        rw [hs3]
        show (updStore s2.store did { s2.store did with desire := Desire.cruise }
          did).speed = _
        rw [SCR.updStore_self]
        show (s2.store did).speed = _
        rw [hst', SCR.updStore_self]
      have hlen3 : s3.road.length = s.road.length := by
        rw [hroadw]
        rfl
      have hnc3 : s3.num_cars = s.num_cars := by
        rw [hs3]
        show s2.num_cars = s.num_cars
        exact hnc2
      have hsoth3 : ∀ j, j ≠ did → s3.store j = s.store j := by
        intro j hj
        rw [hs3]
        show updStore s2.store did { s2.store did with desire := Desire.cruise } j =
          s.store j
        rw [SCR.updStore_other _ _ _ hj, hst', SCR.updStore_other _ _ _ hj]
      have hsdid3 : s3.store did = { s.store did with desire := Desire.cruise } := by
        rw [hs3]
        show updStore s2.store did { s2.store did with desire := Desire.cruise } did = _
        rw [SCR.updStore_self, hst', SCR.updStore_self]
      obtain ⟨d2, hd1, hdle, hdlt, hwfR, hform, hsoth, hsdid, hncR⟩ :=
        cruise_effect s3 hwf3 hocc3 (by rw [hsp3]; exact speed_pos hok did)
          (by rw [hsp3, hlen3]; exact hroom)
      refine ⟨⟨?_, ?_⟩, ?_, ?_,
        Or.inr ⟨lane + 1, d2, Or.inr (Or.inl rfl), hd1, ?_, ?_, ?_, ?_⟩⟩
      · rw [he, he2]
        exact hwfR
      · rw [he, he2]
        intro j
        by_cases hj : j = did
        · subst hj
          rcases hsdid with h | h
          · rw [h, hsdid3]
            exact ⟨Or.inl rfl, (hok j).2⟩
          · rw [h, hsdid3]
            exact ⟨Or.inr rfl, (hok j).2⟩
        · rw [hsoth j hj, hsoth3 j hj]
          exact hok j
      · rw [he, he2]
        exact hncR.trans hnc3
      · rw [he, he2]
        intro j hj
        rw [hsoth j hj, hsoth3 j hj]
      · rw [hsp3] at hdle
        exact hdle
      · rw [hlen3] at hdlt
        exact hdlt
      · intro _
        exact hRnone
      · intro a b
        rw [he, he2, hform a b, hform3 a b]
        by_cases hA : a = lane + 1 ∧ b = i
        · rw [if_pos hA, if_pos (Or.inr hA)]
        · rw [if_neg hA]
          by_cases hB : a = lane + 1 ∧ b = i + d2
          · rw [if_pos hB, if_neg (show ¬((a = lane ∧ b = i) ∨ (a = lane + 1 ∧ b = i))
              from fun hc => hc.elim (fun h2 => by omega) (fun h2 => by omega)),
              if_pos hB]
          · rw [if_neg hB]
            by_cases hC : a = lane ∧ b = i
            · rw [if_pos hC, if_pos (Or.inl hC)]
            · rw [if_neg hC, if_neg hA, if_neg (fun hc => hc.elim hC hA), if_neg hB]

end HV2

namespace HV2

theorem trackB_mono {did l0 p0 spd m m2 : Nat} (hm : m2 ≤ m) {s : Sim}
    (hb : trackB did l0 p0 spd m s) : trackB did l0 p0 spd m2 s := by
  obtain ⟨l1, p1, h1, h2, h3, h4, h5⟩ := hb
  exact ⟨l1, p1, h1, h2, h3, by omega, h5⟩

/-- The lane loop of a single position pass preserves the tracking state:
at position i, a still-unprocessed tracked vehicle at p0 ≤ i is either left
alone (if p0 < i) or processed exactly once (if p0 = i, moving it beyond
i), and an already-moved vehicle is never touched again. -/
theorem lanes_fold_track (u : Nat → ℚ) (did l0 p0 : Nat) (dorig : Driver) (i : Nat) :
    ∀ (ks : List Nat) (s : Sim),
      SGood s →
      ((trackA did l0 p0 dorig s ∧ p0 ≤ i ∧ (p0 = i → l0 ∈ ks)) ∨
        trackB did l0 p0 dorig.speed i s) →
      SGood (ks.foldl
        (fun t k => if (t.road.get k i).isSome then t.sim_driver u k i else t) s) ∧
      (ks.foldl (fun t k => if (t.road.get k i).isSome then t.sim_driver u k i else t)
        s).num_cars = s.num_cars ∧
      ((trackA did l0 p0 dorig (ks.foldl
          (fun t k => if (t.road.get k i).isSome then t.sim_driver u k i else t) s) ∧
        p0 < i) ∨
        trackB did l0 p0 dorig.speed i (ks.foldl
          (fun t k => if (t.road.get k i).isSome then t.sim_driver u k i else t) s)) := by
  intro ks
  induction ks with
  | nil =>
    intro s hg hin
    refine ⟨hg, rfl, ?_⟩
    rcases hin with ⟨ha, hle, hmem⟩ | hb
    · left
      refine ⟨ha, ?_⟩
      rcases Nat.lt_or_ge p0 i with h | h
      · exact h
      · have hpe : p0 = i := by omega
        exact absurd (hmem hpe) (List.not_mem_nil l0)
    · right
      exact hb
  | cons k kt ih =>
    intro s hg hin
    simp only [List.foldl_cons]
    by_cases hso : (s.road.get k i).isSome
    · rw [if_pos hso]
      obtain ⟨did2, hocc2⟩ := Option.isSome_iff_exists.mp hso
      rcases hin with ⟨ha, hle, hmem⟩ | hb
      · by_cases hself : p0 = i ∧ l0 = k
        · -- the tracked vehicle itself is processed
          obtain ⟨hpe, hlk⟩ := hself
          have hocc2' : s.road.get k i = some did := by
            rw [← hlk, ← hpe]
            exact ha.1
          have hdd : did2 = did := Option.some.inj (hocc2.symm.trans hocc2')
          subst hdd
          obtain ⟨hwf, hok⟩ := hg
          obtain ⟨hgood2, hnc2, hsoth2, hforms⟩ := driver_effect s u hwf hok hocc2
          have hspd : (s.store did2).speed = dorig.speed := by rw [ha.2.1]
          have hB : trackB did2 l0 p0 dorig.speed i (s.sim_driver u k i) := by
            rcases hforms with hf | ⟨l2, d2, hadj, hd1, hdle, hdlt, hemp, hf⟩
            · -- exit: no cell holds the id afterwards
              have hsp1 := speed_pos hok did2
              rw [ha.2.1] at hsp1
              refine ⟨l0, p0 + 1, by omega, by omega, Or.inl rfl, by omega, ?_⟩
              intro l p hcell
              rw [hf l p] at hcell
              by_cases hcond : l = k ∧ p = i
              · rw [if_pos hcond] at hcell
                exact Option.noConfusion hcell
              · rw [if_neg hcond] at hcell
                have h9 := ha.2.2 l p hcell
                exact absurd ⟨h9.1.trans hlk, h9.2.trans hpe⟩ hcond
            · -- moved once to (l2, i + d2)
              rw [hspd] at hdle
              refine ⟨l2, i + d2, by omega, by omega, ?_, by omega, ?_⟩
              · rw [← hlk] at hadj
                exact hadj
              · intro l p hcell
                rw [hf l p] at hcell
                by_cases hc1 : (l = k ∧ p = i) ∨ (l = l2 ∧ p = i)
                · rw [if_pos hc1] at hcell
                  exact Option.noConfusion hcell
                · rw [if_neg hc1] at hcell
                  by_cases hc2 : l = l2 ∧ p = i + d2
                  · rw [if_pos hc2] at hcell
                    exact hc2
                  · rw [if_neg hc2] at hcell
                    have h9 := ha.2.2 l p hcell
                    exact absurd (Or.inl ⟨h9.1.trans hlk, h9.2.trans hpe⟩) hc1
          have hrec := ih (s.sim_driver u k i) hgood2 (Or.inr hB)
          exact ⟨hrec.1, hrec.2.1.trans hnc2, hrec.2.2⟩
        · -- some other vehicle is processed: the tracked cell is untouched
          have hne : ¬(k = l0 ∧ i = p0) := fun hc => hself ⟨hc.2.symm, hc.1.symm⟩
          have hdne : did2 ≠ did := by
            intro hc
            subst hc
            have h9 := ha.2.2 k i hocc2
            exact hne ⟨h9.1, h9.2⟩
          obtain ⟨hwf, hok⟩ := hg
          obtain ⟨hgood2, hnc2, hsoth2, hforms⟩ := driver_effect s u hwf hok hocc2
          have hA2 : trackA did l0 p0 dorig (s.sim_driver u k i) := by
            refine ⟨?_, ?_, ?_⟩
            · rcases hforms with hf | ⟨l2, d2, hadj, hd1, hdle, hdlt, hemp, hf⟩
              · rw [hf l0 p0, if_neg (fun hc => hne ⟨hc.1.symm, hc.2.symm⟩)]
                exact ha.1
              · rw [hf l0 p0]
                have hc1 : ¬((l0 = k ∧ p0 = i) ∨ (l0 = l2 ∧ p0 = i)) := by
                  rintro (⟨h1, h2⟩ | ⟨h1, h2⟩)
                  · exact hne ⟨h1.symm, h2.symm⟩
                  · by_cases hlk2 : l2 = k
                    · exact hne ⟨(h1.trans hlk2).symm, h2.symm⟩
                    · have hn := hemp hlk2
                      rw [← h1, ← h2] at hn
                      rw [ha.1] at hn
                      exact Option.noConfusion hn
                have hc2 : ¬(l0 = l2 ∧ p0 = i + d2) := by
                  rintro ⟨h1, h2⟩
                  omega
                rw [if_neg hc1, if_neg hc2]
                exact ha.1
            · rw [hsoth2 did (Ne.symm hdne)]
              exact ha.2.1
            · intro l p hcell
              rcases hforms with hf | ⟨l2, d2, hadj, hd1, hdle, hdlt, hemp, hf⟩
              · rw [hf l p] at hcell
                by_cases hcond : l = k ∧ p = i
                · rw [if_pos hcond] at hcell
                  exact Option.noConfusion hcell
                · rw [if_neg hcond] at hcell
                  exact ha.2.2 l p hcell
              · rw [hf l p] at hcell
                by_cases hc1 : (l = k ∧ p = i) ∨ (l = l2 ∧ p = i)
                · rw [if_pos hc1] at hcell
                  exact Option.noConfusion hcell
                · rw [if_neg hc1] at hcell
                  by_cases hc2 : l = l2 ∧ p = i + d2
                  · rw [if_pos hc2] at hcell
                    exact absurd (Option.some.inj hcell) hdne
                  · rw [if_neg hc2] at hcell
                    exact ha.2.2 l p hcell
          have hmem2 : p0 = i → l0 ∈ kt := by
            intro hpe
            rcases List.mem_cons.mp (hmem hpe) with heq | hm2
            · exact absurd ⟨hpe, heq⟩ hself
            · exact hm2
          have hrec := ih (s.sim_driver u k i) hgood2 (Or.inl ⟨hA2, hle, hmem2⟩)
          exact ⟨hrec.1, hrec.2.1.trans hnc2, hrec.2.2⟩
      · -- already moved: any occupied cell holds a different id
        have hdne : did2 ≠ did := by
          intro hc
          subst hc
          obtain ⟨l1, p1, _, _, _, hip, hun⟩ := hb
          obtain ⟨_, hp⟩ := hun k i hocc2
          omega
        obtain ⟨hwf, hok⟩ := hg
        obtain ⟨hgood2, hnc2, hsoth2, hforms⟩ := driver_effect s u hwf hok hocc2
        obtain ⟨l1, p1, hq1, hq2, hq3, hq4, hq5⟩ := hb
        have hB2 : trackB did l0 p0 dorig.speed i (s.sim_driver u k i) := by
          refine ⟨l1, p1, hq1, hq2, hq3, hq4, ?_⟩
          intro l p hcell
          rcases hforms with hf | ⟨l2, d2, hadj, hd1, hdle, hdlt, hemp, hf⟩
          · rw [hf l p] at hcell
            by_cases hcond : l = k ∧ p = i
            · rw [if_pos hcond] at hcell
              exact Option.noConfusion hcell
            · rw [if_neg hcond] at hcell
              exact hq5 l p hcell
          · rw [hf l p] at hcell
            by_cases hc1 : (l = k ∧ p = i) ∨ (l = l2 ∧ p = i)
            · rw [if_pos hc1] at hcell
              exact Option.noConfusion hcell
            · rw [if_neg hc1] at hcell
              by_cases hc2 : l = l2 ∧ p = i + d2
              · rw [if_pos hc2] at hcell
                exact absurd (Option.some.inj hcell) hdne
              · rw [if_neg hc2] at hcell
                exact hq5 l p hcell
        have hrec := ih (s.sim_driver u k i) hgood2 (Or.inr hB2)
        exact ⟨hrec.1, hrec.2.1.trans hnc2, hrec.2.2⟩
    · rw [if_neg hso]
      have hin2 : (trackA did l0 p0 dorig s ∧ p0 ≤ i ∧ (p0 = i → l0 ∈ kt)) ∨
          trackB did l0 p0 dorig.speed i s := by
        rcases hin with ⟨ha, hle, hmem⟩ | hb
        · left
          refine ⟨ha, hle, ?_⟩
          intro hpe
          rcases List.mem_cons.mp (hmem hpe) with heq | hm2
          · exfalso
            apply hso
            rw [← heq, ← hpe, ha.1]
            rfl
          · exact hm2
        · right
          exact hb
      exact ih s hg hin2

end HV2

namespace HV2

/-- The high-to-low position traversal of Simulation.execute_time_step
processes the tracked vehicle at most once: starting unprocessed at
(l0, p0) with p0 < n (or already moved), after the passes over positions
n-1 .. 0 every cell holding its id is a single cell strictly ahead of p0 by
at most its original speed, in the same or an adjacent lane. -/
theorem pos_fold_track (u : Nat → ℚ) (did l0 p0 : Nat) (dorig : Driver) :
    ∀ (n : Nat) (s : Sim),
      SGood s →
      ((trackA did l0 p0 dorig s ∧ p0 < n) ∨ trackB did l0 p0 dorig.speed (n - 1) s) →
      SGood (((List.range n).reverse).foldl (fun t j => t.lane_pass u j) s) ∧
      (((List.range n).reverse).foldl (fun t j => t.lane_pass u j) s).num_cars =
        s.num_cars ∧
      trackB did l0 p0 dorig.speed 0
        (((List.range n).reverse).foldl (fun t j => t.lane_pass u j) s) := by
  intro n
  induction n with
  | zero =>
    intro s hg hin
    refine ⟨hg, rfl, ?_⟩
    rcases hin with ⟨_, h0⟩ | hb
    · omega
    · exact hb
  | succ n ih =>
    intro s hg hin
    have hsplit : ((List.range (n + 1)).reverse : List Nat) =
        n :: (List.range n).reverse := by
      rw [List.range_succ, List.reverse_append]
      rfl
    rw [hsplit]
    simp only [List.foldl_cons]
    have hin2 : (trackA did l0 p0 dorig s ∧ p0 ≤ n ∧
        (p0 = n → l0 ∈ List.range s.road.num_lanes)) ∨
        trackB did l0 p0 dorig.speed n s := by
      rcases hin with ⟨ha, hlt⟩ | hb
      · left
        refine ⟨ha, by omega, ?_⟩
        intro _
        have hbd := s.road.get_isSome_bounds hg.1 (by rw [ha.1]; rfl)
        exact List.mem_range.mpr hbd.1
      · right
        exact hb
    have hstep := lanes_fold_track u did l0 p0 dorig n
      (List.range s.road.num_lanes) s hg hin2
    have hlp : s.lane_pass u n = (List.range s.road.num_lanes).foldl
        (fun t k => if (t.road.get k n).isSome then t.sim_driver u k n else t) s := rfl
    rw [hlp]
    have hin3 : (trackA did l0 p0 dorig ((List.range s.road.num_lanes).foldl
        (fun t k => if (t.road.get k n).isSome then t.sim_driver u k n else t) s) ∧
        p0 < n) ∨
        trackB did l0 p0 dorig.speed (n - 1) ((List.range s.road.num_lanes).foldl
          (fun t k => if (t.road.get k n).isSome then t.sim_driver u k n else t) s) := by
      rcases hstep.2.2 with ⟨ha2, hlt2⟩ | hb2
      · exact Or.inl ⟨ha2, hlt2⟩
      · exact Or.inr (trackB_mono (by omega) hb2)
    have hrec := ih ((List.range s.road.num_lanes).foldl
        (fun t k => if (t.road.get k n).isSome then t.sim_driver u k n else t) s)
      hstep.1 hin3
    exact ⟨hrec.1, hrec.2.1.trans hstep.2.1, hrec.2.2⟩

/-- One arrival-generator iteration either writes the next fresh id into
cell (lane, 0) and bumps the counter, or changes neither the grid nor the
counter. -/
theorem gen_lane_step_shape (u : Nat → ℚ) (p : Sim × Nat) (k : Nat) :
    ((gen_lane_step u p k).1.road = p.1.road.set k 0 (some p.2) ∧
      (gen_lane_step u p k).2 = p.2 + 1) ∨
    ((gen_lane_step u p k).1.road = p.1.road ∧ (gen_lane_step u p k).2 = p.2) := by
  by_cases h1 : u p.1.rix < CAR_PROBABILITY
  · refine Or.inl ⟨?_, ?_⟩ <;>
      · rw [gen_lane_step]
        simp only [if_pos h1]
  · refine Or.inr ⟨?_, ?_⟩ <;>
      · rw [gen_lane_step]
        simp only [if_neg h1]

/-- The arrival generator writes only position-0 cells, only with ids at
least the running counter, and never lowers the counter: a tracked id below
the counter keeps all its cells at positions at least 1, and cannot appear
in a cell it did not already occupy. -/
theorem gen_fold_track (u : Nat → ℚ) :
    ∀ (ks : List Nat) (p : Sim × Nat) {did : Nat}, did < p.2 →
      p.2 ≤ (ks.foldl (gen_lane_step u) p).2 ∧
      (∀ a b, 1 ≤ b →
        (ks.foldl (gen_lane_step u) p).1.road.get a b = p.1.road.get a b) ∧
      (∀ a, (ks.foldl (gen_lane_step u) p).1.road.get a 0 = some did →
        p.1.road.get a 0 = some did) := by
  intro ks
  induction ks with
  | nil =>
    intro p did hdid
    exact ⟨le_refl _, fun a b _ => rfl, fun a h => h⟩
  | cons k kt ih =>
    intro p did hdid
    simp only [List.foldl_cons]
    rcases gen_lane_step_shape u p k with ⟨hroad, hcnt⟩ | ⟨hroad, hcnt⟩
    · have hdid2 : did < (gen_lane_step u p k).2 := by omega
      obtain ⟨g1, g2, g3⟩ := ih (gen_lane_step u p k) hdid2
      refine ⟨by omega, ?_, ?_⟩
      · intro a b hb
        rw [g2 a b hb, hroad, Highway.get_set_ne_pos _ _ _ _ (by omega)]
      · intro a hcell
        have h9 := g3 a hcell
        rw [hroad] at h9
        rcases Highway.get_set_cases p.1.road k 0 (some p.2) a 0 with hc | hc
        · rw [hc] at h9
          exact absurd (Option.some.inj h9) (by omega)
        · rw [hc] at h9
          exact h9
    · have hdid2 : did < (gen_lane_step u p k).2 := by omega
      obtain ⟨g1, g2, g3⟩ := ih (gen_lane_step u p k) hdid2
      refine ⟨by omega, ?_, ?_⟩
      · intro a b hb
        rw [g2 a b hb, hroad]
      · intro a hcell
        have h9 := g3 a hcell
        rw [hroad] at h9
        exact h9

end HV2

/-- Claim C8.  Monotone advance and single processing per tick in
highway_sim_V2.py: for a vehicle occupying cell (l0, p0) of a well-formed
state whose stored desires are CRUISE or LANE_CHANGE, whose stored speeds
are the SLOW or FAST constants, whose on-grid ids are unique and below
num_cars, any cell holding that vehicle's id after one execute_time_step is
at a strictly larger position (it advanced by at least 1), at most speed
cells ahead (it was processed and moved at most once by the high-to-low
traversal), and in the same or an adjacent lane. -/
theorem monotone_advance (s : HV2.Sim) (u : Nat → ℚ) {l0 p0 did : Nat}
    (hwf : s.road.WF) (hok : HV2.StoreOK s.store)
    (hdistinct : ∀ l p l2 p2 j, s.road.get l p = some j → s.road.get l2 p2 = some j →
      l = l2 ∧ p = p2)
    (hid : did < s.num_cars)
    (hocc : s.road.get l0 p0 = some did) :
    ∀ l1 p1, (s.execute_time_step u).road.get l1 p1 = some did →
      p0 < p1 ∧ p1 ≤ p0 + (s.store did).speed ∧
        (l1 = l0 ∨ l1 = l0 + 1 ∨ l1 + 1 = l0) := by
  intro l1 p1 hcell
  obtain ⟨hl0, hp0⟩ := s.road.get_isSome_bounds hwf (by rw [hocc]; rfl)
  have hin : (HV2.trackA did l0 p0 (s.store did) s ∧ p0 < s.road.length) ∨
      HV2.trackB did l0 p0 (s.store did).speed (s.road.length - 1) s :=
    Or.inl ⟨⟨hocc, rfl, fun l p h => hdistinct l p l0 p0 did h hocc⟩, hp0⟩
  have hpass := HV2.pos_fold_track u did l0 p0 (s.store did) s.road.length s
    ⟨hwf, hok⟩ hin
  set s1 := ((List.range s.road.length).reverse).foldl
    (fun t j => t.lane_pass u j) s with hs1
  have hdid1 : did < (s1, s1.num_cars).2 := by
    show did < s1.num_cars
    rw [hpass.2.1]
    exact hid
  have hgen := HV2.gen_fold_track u (List.range s1.road.num_lanes)
    (s1, s1.num_cars) hdid1
  have hroadE : (s.execute_time_step u).road =
      ((List.range s1.road.num_lanes).foldl (HV2.gen_lane_step u)
        (s1, s1.num_cars)).1.road := rfl
  obtain ⟨lB, pB, hq1, hq2, hq3, hq4, hq5⟩ := hpass.2.2
  rcases Nat.eq_zero_or_pos p1 with hp1z | hp1pos
  · subst hp1z
    rw [hroadE] at hcell
    have h8 := hgen.2.2 l1 hcell
    obtain ⟨_, h92⟩ := hq5 l1 0 h8
    omega
  · rw [hroadE] at hcell
    rw [hgen.2.1 l1 p1 (by omega)] at hcell
    obtain ⟨h91, h92⟩ := hq5 l1 p1 hcell
    refine ⟨by omega, by omega, ?_⟩
    rw [h91]
    exact hq3

/-- Witness for monotone_advance: the lone fast driver of trackSim at
(0, 2) ends the tick at (0, 7) = (0, 2 + speed), and the theorem instance
confirms the advance bounds for that cell. -/
theorem monotone_advance_witness :
    trackSim.road.get 0 2 = some 0 ∧
    (trackSim.execute_time_step uHalf).road.get 0 7 = some 0 ∧
    (2 < 7 ∧ 7 ≤ 2 + (trackSim.store 0).speed ∧
      ((0 : Nat) = 0 ∨ (0 : Nat) = 0 + 1 ∨ 0 + 1 = (0 : Nat))) :=
  ⟨by decide, by decide,
   @monotone_advance trackSim uHalf 0 2 0 ⟨by decide, by decide⟩
     (fun j => ⟨Or.inl rfl, Or.inr rfl⟩)
     (by
       intro l p l2 p2 j h1 h2
       have hs1 : (trackSim.road.get l p).isSome := by rw [h1]; rfl
       have hs2 : (trackSim.road.get l2 p2).isSome := by rw [h2]; rfl
       have key : ∀ a b, (trackSim.road.get a b).isSome = true → a = 0 ∧ b = 2 := by
         intro a b hs
         obtain ⟨ha, hb⟩ := trackSim.road.get_isSome_bounds ⟨by decide, by decide⟩ hs
         have ha2 : a < 2 := ha
         have hb2 : b < 10 := hb
         interval_cases a <;> interval_cases b <;>
           first
             | exact ⟨rfl, rfl⟩
             | exact absurd hs (by decide)
       obtain ⟨k1, k2⟩ := key l p hs1
       obtain ⟨k3, k4⟩ := key l2 p2 hs2
       omega)
     (by decide) (by decide) 0 7 (by decide)⟩
